import Mathlib

/-!
# Verification of the vnpy turtle example (turtle_strategy.py / turtle_engine.py)

A shallow embedding of the two source files of the repository:

* `turtle_strategy.py` — `TurtleResult`, `TurtleSignal`, `TurtlePortfolio`
* `turtle_engine.py` — `BacktestingEngine`, `TradeData`, `DailyResult`

Python floats are modelled by `Rat` (exact arithmetic), Python `int` by `Int`
or `Nat`.  Python dicts (keyed by `vt_symbol` strings) are modelled by
insertion-ordered association lists.  Python attribute errors and key errors —
which matter in this code base, since the engine file is only half renamed
from camelCase — are modelled explicitly with `Except`/outcome values.
-/

/-! ## Dict helpers: insertion-ordered association lists (Python `dict`) -/

/-- Lookup in a Python dict; `none` models a `KeyError` at the use site. -/
def alGet {α : Type} (m : List (String × α)) (k : String) : Option α :=
  match m with
  | [] => none
  | (k', v) :: rest => if k' = k then some v else alGet rest k

/-- `d[k] = v` on a Python dict: overwrite in place, else append (insertion order). -/
def alSet {α : Type} (m : List (String × α)) (k : String) (v : α) : List (String × α) :=
  match m with
  | [] => [(k, v)]
  | (k', v') :: rest => if k' = k then (k, v) :: rest else (k', v') :: alSet rest k v

/-- `d.pop(k)` on a Python dict, with the key known present: remove the binding. -/
def alRemove {α : Type} (m : List (String × α)) (k : String) : List (String × α) :=
  match m with
  | [] => []
  | (k', v') :: rest => if k' = k then rest else (k', v') :: alRemove rest k

/-- Python `round(x, 0)` / `round(x)`: round half to even (banker's rounding).
`Int.fdiv q.num q.den` is the floor of `q` (the denominator is positive). -/
def pyRound (q : Rat) : Int :=
  let f : Int := Int.fdiv q.num (q.den : Int)
  let r : Rat := q - (f : Rat)
  if r < 1/2 then f
  else if r > 1/2 then f + 1
  else if f % 2 = 0 then f else f + 1

/-! ## Shared enums (vnpy.trader.constant Direction / Offset) -/

inductive Direction where
  | LONG
  | SHORT
deriving DecidableEq, Repr

inductive Offset where
  | OPEN
  | CLOSE
deriving DecidableEq, Repr

/-- One OHLC bar as consumed by the strategy (`bar.open/high/low/close`).
`open` is a Lean keyword, so the field is named `open_price`. -/
structure BarData where
  vt_symbol : String
  open_price : Rat
  high : Rat
  low : Rat
  close : Rat
deriving DecidableEq, Repr

/-- Output of the external `ArrayManager` rolling window for one bar:
`am.inited`, `am.donchian(entry_window)`, `am.donchian(exit_window)`,
`am.atr(atr_window)`.  The indicator container is an external capability
(out of the repository's core), so its per-bar output is an oracle input. -/
structure IndicatorData where
  inited : Bool
  entryUp : Rat
  entryDown : Rat
  exitUp : Rat
  exitDown : Rat
  atr : Rat
deriving DecidableEq, Repr

/-! ## turtle_strategy.py: TurtleResult -/

/-- `TurtleResult`: one complete open/close round trip (lines 12-32). -/
structure TurtleResult where
  unit : Int
  entry : Rat
  exit : Rat
  pnl : Rat
deriving DecidableEq, Repr

/-- `TurtleResult.open` (lines 22-27): add `change` units at `price`, keeping the
weighted average entry price.  Named `openAdd` because `open` is a Lean keyword.
(The division is exact in `Rat`; the method is only invoked with `unit + change ≠ 0`.) -/
def TurtleResult.openAdd (tr : TurtleResult) (price : Rat) (change : Int) : TurtleResult :=
  let cost : Rat := (tr.unit : Rat) * tr.entry + (change : Rat) * price
  let unit : Int := tr.unit + change
  { tr with unit := unit, entry := cost / (unit : Rat) }

/-- `TurtleResult.close` (lines 29-32). -/
def TurtleResult.close (tr : TurtleResult) (price : Rat) : TurtleResult :=
  { tr with exit := price, pnl := (tr.unit : Rat) * (price - tr.entry) }

/-! ## turtle_strategy.py: TurtleSignal state -/

/-- The mutable state of one `TurtleSignal` (constructor, lines 38-79).
The `ArrayManager` container is external and therefore not stored; `id` models
Python object identity, used by the portfolio's `is` comparison. -/
structure TurtleSignal where
  id : Nat
  vt_symbol : String
  entry_window : Nat
  exit_window : Nat
  atr_window : Nat
  profit_check : Bool
  atr_volatility : Rat
  entry_up : Rat
  entry_down : Rat
  exit_up : Rat
  exit_down : Rat
  long_entry_1 : Rat
  long_entry_2 : Rat
  long_entry_3 : Rat
  long_entry_4 : Rat
  long_stop : Rat
  short_entry_1 : Rat
  short_entry_2 : Rat
  short_entry_3 : Rat
  short_entry_4 : Rat
  short_stop : Rat
  unit : Int
  last_result : Option TurtleResult
  results : List TurtleResult
  last_bar : Option BarData
deriving DecidableEq, Repr

/-- `TurtleSignal.get_last_pnl` (lines 228-234). -/
def TurtleSignal.get_last_pnl (s : TurtleSignal) : Rat :=
  match s.results.getLast? with
  | none => 0
  | some r => r.pnl

/-- `self.last_bar.open`.  Python raises `AttributeError` when `last_bar` is
`None`; every caller runs under `on_bar`, whose first statement assigns
`last_bar`, so the `none` default is unreachable in the embedded flow. -/
def TurtleSignal.lastBarOpen (s : TurtleSignal) : Rat :=
  match s.last_bar with
  | some b => b.open_price
  | none => 0

/-- `TurtleSignal.calculate_trade_price` (lines 236-245). -/
def TurtleSignal.calculate_trade_price (s : TurtleSignal) (direction : Direction)
    (price : Rat) : Rat :=
  match direction with
  | Direction.LONG => max (TurtleSignal.lastBarOpen s) price
  | Direction.SHORT => min (TurtleSignal.lastBarOpen s) price

/-- `TurtleSignal.open` (lines 212-218), named `openPosition` (`open` is a Lean
keyword): unconditionally adds `change` to the signal's own `unit` and updates
its in-progress `TurtleResult`, creating one if absent. -/
def TurtleSignal.openPosition (s : TurtleSignal) (price : Rat) (change : Int) : TurtleSignal :=
  let tr : TurtleResult :=
    match s.last_result with
    | none => { unit := 0, entry := 0, exit := 0, pnl := 0 }
    | some t => t
  { s with unit := s.unit + change, last_result := some (TurtleResult.openAdd tr price change) }

/-- `TurtleSignal.close` (lines 220-226), named `closePosition`: zeroes the
signal's own `unit`, seals the round trip and appends it to `results`.
(Python would raise `AttributeError` if `last_result` were `None`; the method
is only reached with `unit ≠ 0`, which implies `last_result` is set.) -/
def TurtleSignal.closePosition (s : TurtleSignal) (price : Rat) : TurtleSignal :=
  match s.last_result with
  | none => { s with unit := 0 }
  | some tr =>
      { s with unit := 0,
               results := s.results ++ [TurtleResult.close tr price],
               last_result := none }

/-! ## turtle_strategy.py: TurtlePortfolio state -/

def MAX_PRODUCT_POS : Int := 4

def MAX_DIRECTION_POS : Int := 10

/-- The mutable state of `TurtlePortfolio` (constructor, lines 251-267).
The `signals` registry and the `engine` back-reference are not stored: bars are
dispatched to signals explicitly in the theorems, and the engine boundary is
modelled by `BacktestingEngine.getattr` below. -/
structure TurtlePortfolio where
  units : List (String × Int)
  total_long : Int
  total_short : Int
  trading_signals : List (String × Nat)
  sizes : List (String × Rat)
  multipliers : List (String × Int)
  poses : List (String × Int)
  portfolio_value : Rat
deriving DecidableEq, Repr

/-- The attribute names of a `BacktestingEngine` instance (turtle_engine.py):
its methods (lines 39-303) and the instance attributes set in `__init__`
(lines 16-37).  The order-recording method is `sendOrder` — the file was never
renamed to snake_case — so `send_order` is absent. -/
def BacktestingEngine.attributeNames : List String :=
  ["portfolio", "vt_symbols", "sizes", "priceticks", "variable_commissions",
   "fixed_commissions", "slippages", "portfolio_value", "start_dt", "end_dt",
   "current_dt", "data", "trades", "result", "results",
   "set_period", "init_portfolio", "load_data", "run_backtesting",
   "calculate_result", "showResult", "sendOrder", "output", "getTradeData"]

/-- Python attribute lookup `self.engine.<name>`: succeeds exactly when the
name is an attribute of `BacktestingEngine`, else raises `AttributeError`. -/
def BacktestingEngine.getattr (name : String) : Except String Unit :=
  if name ∈ BacktestingEngine.attributeNames then Except.ok ()
  else Except.error ("AttributeError: BacktestingEngine object has no attribute " ++ name)

/-- Result of one `TurtlePortfolio.new_signal` proposal.
`rejected` = a silent gate rejection (a bare `return`);
`errored` = a Python exception raised during the call (state mutated so far is kept);
`sent` = the order reached the engine recorder (unreachable with this engine,
since the `send_order` attribute lookup fails). -/
inductive ProposalOutcome where
  | rejected (reason : String)
  | errored (msg : String)
  | sent
deriving DecidableEq, Repr

/-- `TurtlePortfolio.send_order` (lines 360-383): updates `units` and `poses`
for the symbol, recomputes `total_long`/`total_short` from scratch over all
instruments, then calls `self.engine.send_order(...)` — an attribute lookup
that raises `AttributeError` because the engine only defines `sendOrder`.
The mutations performed before the failing call are kept, as in Python. -/
def TurtlePortfolio.send_order (p : TurtlePortfolio) (vt_symbol : String)
    (direction : Direction) (_offset : Offset) (_price : Rat) (volume : Int)
    (multiplier : Int) : TurtlePortfolio × Except String Unit :=
  match alGet p.units vt_symbol with
  | none => (p, Except.error "KeyError: units")
  | some u =>
    let u' : Int := if direction = Direction.LONG then u + volume else u - volume
    let p1 := { p with units := alSet p.units vt_symbol u' }
    match alGet p1.poses vt_symbol with
    | none => (p1, Except.error "KeyError: poses")
    | some q =>
      let q' : Int :=
        if direction = Direction.LONG then q + volume * multiplier
        else q - volume * multiplier
      let p2 := { p1 with poses := alSet p1.poses vt_symbol q' }
      let totals : Int × Int :=
        p2.units.foldl
          (fun acc kv =>
            if kv.2 > 0 then (acc.1 + kv.2, acc.2)
            else if kv.2 < 0 then (acc.1, acc.2 + kv.2)
            else acc)
          (0, 0)
      let p3 := { p2 with total_long := totals.1, total_short := totals.2 }
      (p3, BacktestingEngine.getattr "send_order")

/-- The outcome of a proposal whose hand-off to the engine ran: a raised
exception becomes an `errored` outcome, success a `sent` one. -/
def outcomeOfExcept : Except String Unit → ProposalOutcome
  | Except.ok _ => ProposalOutcome.sent
  | Except.error e => ProposalOutcome.errored e

/-- Lines 350-358 of `TurtlePortfolio.new_signal`: on an open, record this
signal as the instrument's trading signal; on a close, pop it
(`trading_signals.pop(...)` raises `KeyError` when the key is absent); then
hand off to `send_order`. -/
def TurtlePortfolio.set_and_send (p : TurtlePortfolio) (sig : TurtleSignal)
    (direction : Direction) (offset : Offset) (price : Rat) (volume : Int)
    (multiplier : Int) : TurtlePortfolio × ProposalOutcome :=
  if offset = Offset.OPEN then
    let p2 := { p with trading_signals := alSet p.trading_signals sig.vt_symbol sig.id }
    let r := TurtlePortfolio.send_order p2 sig.vt_symbol direction offset price volume multiplier
    (r.1, outcomeOfExcept r.2)
  else
    match alGet p.trading_signals sig.vt_symbol with
    | none => (p, ProposalOutcome.errored "KeyError: trading_signals pop")
    | some _ =>
      let p2 := { p with trading_signals := alRemove p.trading_signals sig.vt_symbol }
      let r := TurtlePortfolio.send_order p2 sig.vt_symbol direction offset price volume multiplier
      (r.1, outcomeOfExcept r.2)

/-- Lines 345-358 of `TurtlePortfolio.new_signal`: the exclusivity check on
`trading_signals` (Python `is` identity, modelled by the stored signal `id`;
a stored signal object is always truthy) followed by the set/pop and
hand-off. -/
def TurtlePortfolio.check_and_send (p : TurtlePortfolio) (sig : TurtleSignal)
    (direction : Direction) (offset : Offset) (price : Rat) (volume : Int)
    (multiplier : Int) : TurtlePortfolio × ProposalOutcome :=
  match alGet p.trading_signals sig.vt_symbol with
  | some i =>
    if i = sig.id then
      TurtlePortfolio.set_and_send p sig direction offset price volume multiplier
    else (p, ProposalOutcome.rejected "another signal is active for this vt_symbol")
  | none => TurtlePortfolio.set_and_send p sig direction offset price volume multiplier

/-- Lines 306-358 of `new_signal`, shared by both multiplier paths: the open
gate (profit check, then the directional cap `total_long >= 10` /
`total_short <= -10`, then the per-product cap `|units| >= 4`), the close
gate (reject unless the current exposure is opposite; clamp the volume to
`min(volume, |unit|)`), then the exclusivity check and hand-off. -/
def TurtlePortfolio.gate (p : TurtlePortfolio) (sig : TurtleSignal)
    (direction : Direction) (offset : Offset) (price : Rat) (volume : Int)
    (unit : Int) (multiplier : Int) : TurtlePortfolio × ProposalOutcome :=
  if offset = Offset.OPEN then
    if sig.profit_check ∧ TurtleSignal.get_last_pnl sig > 0 then
      (p, ProposalOutcome.rejected "previous trade was profitable")
    else if direction = Direction.LONG ∧ p.total_long ≥ MAX_DIRECTION_POS then
      (p, ProposalOutcome.rejected "total long position cap reached")
    else if direction = Direction.LONG ∧ unit ≥ MAX_PRODUCT_POS then
      (p, ProposalOutcome.rejected "per-product long cap reached")
    else if direction = Direction.SHORT ∧ p.total_short ≤ -MAX_DIRECTION_POS then
      (p, ProposalOutcome.rejected "total short position cap reached")
    else if direction = Direction.SHORT ∧ unit ≤ -MAX_PRODUCT_POS then
      (p, ProposalOutcome.rejected "per-product short cap reached")
    else TurtlePortfolio.check_and_send p sig direction offset price volume multiplier
  else
    if direction = Direction.LONG then
      if unit ≥ 0 then (p, ProposalOutcome.rejected "no short position to close")
      else TurtlePortfolio.check_and_send p sig direction offset price
             (min volume |unit|) multiplier
    else
      if unit ≤ 0 then (p, ProposalOutcome.rejected "no long position to close")
      else TurtlePortfolio.check_and_send p sig direction offset price
             (min volume |unit|) multiplier

/-- `TurtlePortfolio.new_signal` (lines 290-358): the allocator / order gate.
When the instrument is flat the contracts-per-unit multiplier is recomputed
(`round(portfolio_value * 0.01 / (atr_volatility * size))`, half-to-even) and
stored; otherwise the frozen value is reused.  The gate checks follow. -/
def TurtlePortfolio.new_signal (p : TurtlePortfolio) (sig : TurtleSignal)
    (direction : Direction) (offset : Offset) (price : Rat) (volume : Int) :
    TurtlePortfolio × ProposalOutcome :=
  match alGet p.units sig.vt_symbol with
  | none => (p, ProposalOutcome.errored "KeyError: units")
  | some unit =>
    if unit = 0 then
      match alGet p.sizes sig.vt_symbol with
      | none => (p, ProposalOutcome.errored "KeyError: sizes")
      | some size =>
        let risk_value : Rat := p.portfolio_value * 0.01
        let multiplier : Int := pyRound (risk_value / (sig.atr_volatility * size))
        TurtlePortfolio.gate
          { p with multipliers := alSet p.multipliers sig.vt_symbol multiplier }
          sig direction offset price volume unit multiplier
    else
      match alGet p.multipliers sig.vt_symbol with
      | none => (p, ProposalOutcome.errored "KeyError: multipliers")
      | some multiplier =>
        TurtlePortfolio.gate p sig direction offset price volume unit multiplier

/-! ## turtle_strategy.py: TurtleSignal trade actions -/

/-- The proposal a signal submits to the portfolio, paired with the
allocator's outcome for it. -/
structure Proposal where
  direction : Direction
  offset : Offset
  price : Rat
  volume : Int
  outcome : ProposalOutcome
deriving DecidableEq, Repr

/-- Whether an action's proposals contain a raised Python exception (an
`errored` outcome).  Such an exception propagates: it aborts the remaining
statements of the trade action, of `generate_signal`, and of `on_bar`. -/
def raisedIn (props : List Proposal) : Bool :=
  props.any (fun x =>
    match x.outcome with
    | ProposalOutcome.errored _ => true
    | _ => false)

/-- `TurtleSignal.buy` (lines 176-184): clamp the price, mutate the signal's
own state via `open`, *then* propose to the portfolio — the local `unit` and
open-trade mutations happen whether or not the allocator accepts.  If the
proposal raises (an `errored` outcome; with this engine, every accepted
hand-off), the exception propagates: the final `long_stop` assignment is
skipped and the caller aborts.  On a normal return (e.g. a silent rejection)
the stop is reset from the clamped fill price. -/
def TurtleSignal.buy (s : TurtleSignal) (p : TurtlePortfolio) (price : Rat)
    (volume : Int) : TurtleSignal × TurtlePortfolio × List Proposal :=
  let price := TurtleSignal.calculate_trade_price s Direction.LONG price
  let s1 := TurtleSignal.openPosition s price volume
  let r := TurtlePortfolio.new_signal p s1 Direction.LONG Offset.OPEN price volume
  match r.2 with
  | ProposalOutcome.errored e =>
    (s1, r.1, [{ direction := Direction.LONG, offset := Offset.OPEN, price := price,
                 volume := volume, outcome := ProposalOutcome.errored e }])
  | out =>
    ({ s1 with long_stop := price - s1.atr_volatility * 2 }, r.1,
     [{ direction := Direction.LONG, offset := Offset.OPEN, price := price,
        volume := volume, outcome := out }])

/-- `TurtleSignal.sell` (lines 186-192): close the full local position, then
propose the close to the portfolio. -/
def TurtleSignal.sell (s : TurtleSignal) (p : TurtlePortfolio) (price : Rat) :
    TurtleSignal × TurtlePortfolio × List Proposal :=
  let price := TurtleSignal.calculate_trade_price s Direction.SHORT price
  let volume : Int := |s.unit|
  let s1 := TurtleSignal.closePosition s price
  let r := TurtlePortfolio.new_signal p s1 Direction.SHORT Offset.CLOSE price volume
  (s1, r.1, [{ direction := Direction.SHORT, offset := Offset.CLOSE, price := price,
               volume := volume, outcome := r.2 }])

/-- `TurtleSignal.short` (lines 194-202): symmetric to `buy` — an `errored`
proposal propagates, skipping the `short_stop` assignment. -/
def TurtleSignal.short (s : TurtleSignal) (p : TurtlePortfolio) (price : Rat)
    (volume : Int) : TurtleSignal × TurtlePortfolio × List Proposal :=
  let price := TurtleSignal.calculate_trade_price s Direction.SHORT price
  let s1 := TurtleSignal.openPosition s price (-volume)
  let r := TurtlePortfolio.new_signal p s1 Direction.SHORT Offset.OPEN price volume
  match r.2 with
  | ProposalOutcome.errored e =>
    (s1, r.1, [{ direction := Direction.SHORT, offset := Offset.OPEN, price := price,
                 volume := volume, outcome := ProposalOutcome.errored e }])
  | out =>
    ({ s1 with short_stop := price + s1.atr_volatility * 2 }, r.1,
     [{ direction := Direction.SHORT, offset := Offset.OPEN, price := price,
        volume := volume, outcome := out }])

/-- `TurtleSignal.cover` (lines 204-210). -/
def TurtleSignal.cover (s : TurtleSignal) (p : TurtlePortfolio) (price : Rat) :
    TurtleSignal × TurtlePortfolio × List Proposal :=
  let price := TurtleSignal.calculate_trade_price s Direction.LONG price
  let volume : Int := |s.unit|
  let s1 := TurtleSignal.closePosition s price
  let r := TurtlePortfolio.new_signal p s1 Direction.LONG Offset.CLOSE price volume
  (s1, r.1, [{ direction := Direction.LONG, offset := Offset.CLOSE, price := price,
               volume := volume, outcome := r.2 }])

/-- One `if` of the long entry block (lines 118-132): level `k` at price
`entry` fires when `bar.high ≥ entry` and the *current* `self.unit < k`. -/
def TurtleSignal.longStep (s : TurtleSignal) (p : TurtlePortfolio) (bar : BarData)
    (entry : Rat) (k : Int) : TurtleSignal × TurtlePortfolio × List Proposal :=
  if bar.high ≥ entry ∧ s.unit < k then TurtleSignal.buy s p entry 1 else (s, p, [])

/-- Lines 115-135 of `generate_signal`: the four ascending long entry levels,
each a separate sequential `if` (not `elif`), each reading the *current*
`self.unit`, so several levels can fire in the same bar — unless a level's
proposal raises, which aborts the evaluation of the remaining levels (the
exception propagates out of `generate_signal`). -/
def TurtleSignal.longPhase (s : TurtleSignal) (p : TurtlePortfolio) (bar : BarData) :
    TurtleSignal × TurtlePortfolio × List Proposal :=
  let r1 := TurtleSignal.longStep s p bar s.long_entry_1 1
  if raisedIn r1.2.2 then r1
  else
    let r2 := TurtleSignal.longStep r1.1 r1.2.1 bar r1.1.long_entry_2 2
    if raisedIn r2.2.2 then (r2.1, r2.2.1, r1.2.2 ++ r2.2.2)
    else
      let r3 := TurtleSignal.longStep r2.1 r2.2.1 bar r2.1.long_entry_3 3
      if raisedIn r3.2.2 then (r3.1, r3.2.1, r1.2.2 ++ r2.2.2 ++ r3.2.2)
      else
        let r4 := TurtleSignal.longStep r3.1 r3.2.1 bar r3.1.long_entry_4 4
        (r4.1, r4.2.1, r1.2.2 ++ r2.2.2 ++ r3.2.2 ++ r4.2.2)

/-- One `if` of the short entry block (lines 139-149): level `k` at price
`entry` fires when `bar.low ≤ entry` and the current `self.unit > -k`. -/
def TurtleSignal.shortStep (s : TurtleSignal) (p : TurtlePortfolio) (bar : BarData)
    (entry : Rat) (k : Int) : TurtleSignal × TurtlePortfolio × List Proposal :=
  if bar.low ≤ entry ∧ s.unit > -k then TurtleSignal.short s p entry 1 else (s, p, [])

/-- Lines 138-149 of `generate_signal`: the four descending short entry levels,
again sequential `if`s reading the current `self.unit`, with the same
abort-on-raise propagation as the long block. -/
def TurtleSignal.shortPhase (s : TurtleSignal) (p : TurtlePortfolio) (bar : BarData) :
    TurtleSignal × TurtlePortfolio × List Proposal :=
  let r1 := TurtleSignal.shortStep s p bar s.short_entry_1 1
  if raisedIn r1.2.2 then r1
  else
    let r2 := TurtleSignal.shortStep r1.1 r1.2.1 bar r1.1.short_entry_2 2
    if raisedIn r2.2.2 then (r2.1, r2.2.1, r1.2.2 ++ r2.2.2)
    else
      let r3 := TurtleSignal.shortStep r2.1 r2.2.1 bar r2.1.short_entry_3 3
      if raisedIn r3.2.2 then (r3.1, r3.2.1, r1.2.2 ++ r2.2.2 ++ r3.2.2)
      else
        let r4 := TurtleSignal.shortStep r3.1 r3.2.1 bar r3.1.short_entry_4 4
        (r4.1, r4.2.1, r1.2.2 ++ r2.2.2 ++ r3.2.2 ++ r4.2.2)

/-- `TurtleSignal.generate_signal` (lines 92-149): exits first (with an early
return), then the long entry block (early return if any long entry fired,
skipping the short block), then the short entry block. -/
def TurtleSignal.generate_signal (s : TurtleSignal) (p : TurtlePortfolio)
    (bar : BarData) : TurtleSignal × TurtlePortfolio × List Proposal :=
  if s.long_entry_1 = 0 then (s, p, [])
  else if s.unit > 0 ∧ bar.low ≤ max s.long_stop s.exit_down then
    TurtleSignal.sell s p (max s.long_stop s.exit_down)
  else if s.unit < 0 ∧ bar.high ≥ min s.short_stop s.exit_up then
    TurtleSignal.cover s p (min s.short_stop s.exit_up)
  else
    let r1 := if s.unit ≥ 0 then TurtleSignal.longPhase s p bar else (s, p, [])
    if r1.2.2.isEmpty then
      if r1.1.unit ≤ 0 then TurtleSignal.shortPhase r1.1 r1.2.1 bar
      else r1
    else r1

/-- `TurtleSignal.calculate_indicator` (lines 151-170): refresh the channels;
while flat (`unit == 0`) also refresh the ATR snapshot, the four entry levels
on each side, and zero the stops; frozen otherwise. -/
def TurtleSignal.calculate_indicator (s : TurtleSignal) (ind : IndicatorData) : TurtleSignal :=
  let s1 := { s with entry_up := ind.entryUp, entry_down := ind.entryDown,
                     exit_up := ind.exitUp, exit_down := ind.exitDown }
  if s1.unit = 0 then
    { s1 with
      atr_volatility := ind.atr,
      long_entry_1 := s1.entry_up,
      long_entry_2 := s1.entry_up + ind.atr * 0.5,
      long_entry_3 := s1.entry_up + ind.atr * 1,
      long_entry_4 := s1.entry_up + ind.atr * 1.5,
      long_stop := 0,
      short_entry_1 := s1.entry_down,
      short_entry_2 := s1.entry_down - ind.atr * 0.5,
      short_entry_3 := s1.entry_down - ind.atr * 1,
      short_entry_4 := s1.entry_down - ind.atr * 1.5,
      short_stop := 0 }
  else s1

/-- `TurtleSignal.on_bar` (lines 81-90): record the bar, feed the (external)
array manager — whose warm-up flag and indicator values arrive as the oracle
`ind` — and, once warmed up, run `generate_signal` then `calculate_indicator`;
a raised exception from `generate_signal` propagates, skipping the indicator
refresh. -/
def TurtleSignal.on_bar (s : TurtleSignal) (p : TurtlePortfolio) (bar : BarData)
    (ind : IndicatorData) : TurtleSignal × TurtlePortfolio × List Proposal :=
  let s0 := { s with last_bar := some bar }
  if ind.inited = false then (s0, p, [])
  else
    let r := TurtleSignal.generate_signal s0 p bar
    if raisedIn r.2.2 then r
    else (TurtleSignal.calculate_indicator r.1 ind, r.2.1, r.2.2)

/-- A whole run of one signal over a sequence of bars (each with its oracle
indicator output), folding `on_bar`. -/
def TurtleSignal.run_bars (s : TurtleSignal) (p : TurtlePortfolio)
    (l : List (BarData × IndicatorData)) : TurtleSignal × TurtlePortfolio :=
  l.foldl (fun acc bi =>
    let r := TurtleSignal.on_bar acc.1 acc.2 bi.1 bi.2
    (r.1, r.2.1)) (s, p)

/-! ## turtle_engine.py: TradeData and DailyResult -/

/-- `TradeData` (turtle_engine.py lines 306-315). -/
structure TradeData where
  vt_symbol : String
  direction : Direction
  offset : Offset
  price : Rat
  volume : Int
deriving DecidableEq, Repr

/-- `DailyResult` (turtle_engine.py lines 318-337).  These are *all* the
attributes its constructor defines; in particular there is no `sizes`,
`slippages`, `variable_commissions` or `fixed_commissions` attribute, although
`calculate_holding_pnl` and `calculate_trading_pnl` read them. -/
structure DailyResult where
  date : Nat
  closes : List (String × Rat)
  previousCloseDict : List (String × Rat)
  trades : List (String × List TradeData)
  posDict : List (String × Int)
  tradingPnl : Rat
  holdingPnl : Rat
  totalPnl : Rat
  commission : Rat
  slippage : Rat
  netPnl : Rat
  tradeCount : Nat
deriving DecidableEq, Repr

/-- `DailyResult.calculate_holding_pnl` (lines 382-390).  The loop body reads
`self.previousCloseDict.get(sym, 0)` (total), `self.closes[sym]` (may raise
`KeyError`) and then `self.sizes[sym]` — but `DailyResult` defines no attribute
`sizes`, so the first iteration raises `AttributeError`.  With an empty
`posDict` the loop body never runs and the method returns normally, leaving
`holdingPnl` untouched. -/
def DailyResult.calculate_holding_pnl (r : DailyResult) : Except String DailyResult :=
  match r.posDict with
  | [] => Except.ok r
  | (sym, _) :: _ =>
    match alGet r.closes sym with
    | none => Except.error ("KeyError: " ++ sym)
    | some _ => Except.error "AttributeError: DailyResult object has no attribute sizes"

/-- `DailyResult.calculate_trading_pnl` (lines 357-380).  Identical failure
mode: the per-symbol loop reads `self.closes[sym]` then `self.sizes[sym]`,
and `sizes` is not an attribute of `DailyResult` (nor are `slippages`,
`variable_commissions`, `fixed_commissions`; nor is `Direction` even imported
by the engine module), so any day with at least one recorded trade raises. -/
def DailyResult.calculate_trading_pnl (r : DailyResult) : Except String DailyResult :=
  match r.trades with
  | [] => Except.ok r
  | (sym, _) :: _ =>
    match alGet r.closes sym with
    | none => Except.error ("KeyError: " ++ sym)
    | some _ => Except.error "AttributeError: DailyResult object has no attribute sizes"

/-- `DailyResult.calculate_pnl` (lines 392-397): holding PnL, then trading
PnL, then the totals.  Note it accumulates into the current field values with
no guard against being run a second time. -/
def DailyResult.calculate_pnl (r : DailyResult) : Except String DailyResult :=
  match DailyResult.calculate_holding_pnl r with
  | Except.error e => Except.error e
  | Except.ok r1 =>
    match DailyResult.calculate_trading_pnl r1 with
    | Except.error e => Except.error e
    | Except.ok r2 =>
      Except.ok { r2 with totalPnl := r2.holdingPnl + r2.tradingPnl,
                          netPnl := r2.holdingPnl + r2.tradingPnl - r2.commission - r2.slippage }

/-! ## turtle_engine.py: BacktestingEngine.calculate_result -/

/-- The running state of the per-day loop of `calculate_result`
(lines 126-164): scalar accumulators and the time-series lists. -/
structure AggSt where
  profit_days : Nat
  loss_days : Nat
  end_balance : Rat
  highlevel : Rat
  total_net_pnl : Rat
  total_commission : Rat
  total_slippage : Rat
  total_trade_count : Nat
  netPnlList : List Rat
  balanceList : List Rat
  highlevelList : List Rat
  drawdownList : List Rat
  ddPercentList : List Rat
  returnList : List Rat
deriving DecidableEq, Repr

/-- One iteration of the `for result in results` loop (lines 142-164).
(The two divisions are exact `Rat` divisions; Python would raise
`ZeroDivisionError` if `prevBalance` or `highlevel` were exactly 0.) -/
def aggStep (st : AggSt) (r : DailyResult) : AggSt :=
  let profit_days := if r.netPnl > 0 then st.profit_days + 1 else st.profit_days
  let loss_days := if r.netPnl < 0 then st.loss_days + 1 else st.loss_days
  let prevBalance := st.end_balance
  let end_balance := st.end_balance + r.netPnl
  let highlevel := max st.highlevel end_balance
  let drawdown := end_balance - highlevel
  { profit_days := profit_days,
    loss_days := loss_days,
    end_balance := end_balance,
    highlevel := highlevel,
    total_net_pnl := st.total_net_pnl + r.netPnl,
    total_commission := st.total_commission + r.commission,
    total_slippage := st.total_slippage + r.slippage,
    total_trade_count := st.total_trade_count + r.tradeCount,
    netPnlList := st.netPnlList ++ [r.netPnl],
    balanceList := st.balanceList ++ [end_balance],
    highlevelList := st.highlevelList ++ [highlevel],
    drawdownList := st.drawdownList ++ [drawdown],
    ddPercentList := st.ddPercentList ++ [drawdown / highlevel * 100],
    returnList := st.returnList ++ [end_balance / prevBalance - 1] }

/-- Initial loop state (lines 126-140): balance and high-water mark start at
the portfolio value, every list empty. -/
def aggInit (portfolio_value : Rat) : AggSt :=
  { profit_days := 0, loss_days := 0,
    end_balance := portfolio_value, highlevel := portfolio_value,
    total_net_pnl := 0, total_commission := 0, total_slippage := 0,
    total_trade_count := 0,
    netPnlList := [], balanceList := [], highlevelList := [],
    drawdownList := [], ddPercentList := [], returnList := [] }

/-- Python `min(list)` over a nonempty list (raises `ValueError` on `[]`;
the `0` default is unreachable in `calculate_result`, which has already
indexed `dates[0]`). -/
def pyMin (l : List Rat) : Rat :=
  match l with
  | [] => 0
  | x :: xs => xs.foldl min x

/-- The exactly-computable part of the `result`/`timeseries` pair returned by
`calculate_result` (lines 178-213).  The floating statistics built on
`np.mean`/`np.std`/`np.sqrt` (`dailyReturn`, `returnStd`, `sharpeRatio`,
`annualizedReturn`) are not representable in exact arithmetic and are outside
every claim, so they are not carried. -/
structure AggOut where
  total_days : Nat
  profit_days : Nat
  loss_days : Nat
  end_balance : Rat
  maxDrawdown : Rat
  maxDdPercent : Rat
  total_net_pnl : Rat
  total_commission : Rat
  total_slippage : Rat
  total_trade_count : Nat
  totalReturn : Rat
  netPnlList : List Rat
  balanceList : List Rat
  highlevelList : List Rat
  drawdownList : List Rat
  ddPercentList : List Rat
  returnList : List Rat
deriving DecidableEq, Repr

/-- Lines 119-213 of `calculate_result`: the summary loop over the (already
finalized) daily results.  An empty result list raises `IndexError` at
`dates[0]`.  `maxDrawdown`/`maxDdPercent` are Python `min(...)` of the series. -/
def calculate_result_loop (portfolio_value : Rat) (results : List DailyResult) :
    Except String AggOut :=
  match results with
  | [] => Except.error "IndexError: list index out of range"
  | _ =>
    let st := results.foldl aggStep (aggInit portfolio_value)
    Except.ok
      { total_days := results.length,
        profit_days := st.profit_days,
        loss_days := st.loss_days,
        end_balance := st.end_balance,
        maxDrawdown := pyMin st.drawdownList,
        maxDdPercent := pyMin st.ddPercentList,
        total_net_pnl := st.total_net_pnl,
        total_commission := st.total_commission,
        total_slippage := st.total_slippage,
        total_trade_count := st.total_trade_count,
        totalReturn := (st.end_balance / portfolio_value - 1) * 100,
        netPnlList := st.netPnlList,
        balanceList := st.balanceList,
        highlevelList := st.highlevelList,
        drawdownList := st.drawdownList,
        ddPercentList := st.ddPercentList,
        returnList := st.returnList }

/-- Sequential in-place finalization pass of lines 116-117
(`for result in self.results: result.calculate_pnl()`): the first raised
exception propagates; ledgers already finalized keep their mutations. -/
def finalizeAll (results : List DailyResult) : Except String (List DailyResult) :=
  match results with
  | [] => Except.ok []
  | r :: rest =>
    match DailyResult.calculate_pnl r with
    | Except.error e => Except.error e
    | Except.ok r' =>
      match finalizeAll rest with
      | Except.error e => Except.error e
      | Except.ok rest' => Except.ok (r' :: rest')

/-- `BacktestingEngine.calculate_result` (lines 112-213): it *first* re-runs
`calculate_pnl` on every stored `DailyResult` (with no guard that they were
already finalized), then runs the summary loop over the mutated ledgers.
Returns the mutated ledger list together with the summary, mirroring the
mutation of `self.results`. -/
def BacktestingEngine.calculate_result (portfolio_value : Rat)
    (results : List DailyResult) : Except String (List DailyResult × AggOut) :=
  match finalizeAll results with
  | Except.error e => Except.error e
  | Except.ok finalized =>
    match calculate_result_loop portfolio_value finalized with
    | Except.error e => Except.error e
    | Except.ok out => Except.ok (finalized, out)

/-! ## Helper lemmas: effect of the trade actions on the signal's own state -/

lemma TurtleSignal.buy_unit (s : TurtleSignal) (p : TurtlePortfolio) (price : Rat)
    (volume : Int) : (TurtleSignal.buy s p price volume).1.unit = s.unit + volume := by
  simp only [TurtleSignal.buy]
  split <;> rfl

lemma TurtleSignal.buy_long_entry_2 (s : TurtleSignal) (p : TurtlePortfolio) (price : Rat)
    (volume : Int) : (TurtleSignal.buy s p price volume).1.long_entry_2 = s.long_entry_2 := by
  simp only [TurtleSignal.buy]
  split <;> rfl

lemma TurtleSignal.buy_long_entry_3 (s : TurtleSignal) (p : TurtlePortfolio) (price : Rat)
    (volume : Int) : (TurtleSignal.buy s p price volume).1.long_entry_3 = s.long_entry_3 := by
  simp only [TurtleSignal.buy]
  split <;> rfl

lemma TurtleSignal.buy_long_entry_4 (s : TurtleSignal) (p : TurtlePortfolio) (price : Rat)
    (volume : Int) : (TurtleSignal.buy s p price volume).1.long_entry_4 = s.long_entry_4 := by
  simp only [TurtleSignal.buy]
  split <;> rfl

lemma TurtleSignal.buy_len (s : TurtleSignal) (p : TurtlePortfolio) (price : Rat)
    (volume : Int) : (TurtleSignal.buy s p price volume).2.2.length = 1 := by
  simp only [TurtleSignal.buy]
  split <;> rfl

lemma TurtleSignal.short_unit (s : TurtleSignal) (p : TurtlePortfolio) (price : Rat)
    (volume : Int) : (TurtleSignal.short s p price volume).1.unit = s.unit - volume := by
  simp only [TurtleSignal.short]
  split
  all_goals
    show s.unit + (-volume) = s.unit - volume
    omega

lemma TurtleSignal.short_short_entry_2 (s : TurtleSignal) (p : TurtlePortfolio) (price : Rat)
    (volume : Int) : (TurtleSignal.short s p price volume).1.short_entry_2 = s.short_entry_2 := by
  simp only [TurtleSignal.short]
  split <;> rfl

lemma TurtleSignal.short_short_entry_3 (s : TurtleSignal) (p : TurtlePortfolio) (price : Rat)
    (volume : Int) : (TurtleSignal.short s p price volume).1.short_entry_3 = s.short_entry_3 := by
  simp only [TurtleSignal.short]
  split <;> rfl

lemma TurtleSignal.short_short_entry_4 (s : TurtleSignal) (p : TurtlePortfolio) (price : Rat)
    (volume : Int) : (TurtleSignal.short s p price volume).1.short_entry_4 = s.short_entry_4 := by
  simp only [TurtleSignal.short]
  split <;> rfl

lemma TurtleSignal.short_len (s : TurtleSignal) (p : TurtlePortfolio) (price : Rat)
    (volume : Int) : (TurtleSignal.short s p price volume).2.2.length = 1 := by
  simp only [TurtleSignal.short]
  split <;> rfl

lemma TurtleSignal.closePosition_unit (s : TurtleSignal) (price : Rat) :
    (TurtleSignal.closePosition s price).unit = 0 := by
  unfold TurtleSignal.closePosition
  cases s.last_result <;> rfl

lemma TurtleSignal.sell_unit (s : TurtleSignal) (p : TurtlePortfolio) (price : Rat) :
    (TurtleSignal.sell s p price).1.unit = 0 := by
  unfold TurtleSignal.sell
  exact TurtleSignal.closePosition_unit _ _

lemma TurtleSignal.cover_unit (s : TurtleSignal) (p : TurtlePortfolio) (price : Rat) :
    (TurtleSignal.cover s p price).1.unit = 0 := by
  unfold TurtleSignal.cover
  exact TurtleSignal.closePosition_unit _ _

lemma TurtleSignal.calculate_indicator_unit (s : TurtleSignal) (ind : IndicatorData) :
    (TurtleSignal.calculate_indicator s ind).unit = s.unit := by
  unfold TurtleSignal.calculate_indicator
  by_cases h : s.unit = 0 <;> simp [h]

/-- Bounds for one long entry step: under `unit < k`, the add keeps
`unit ≤ k ≤ 4`, and the unit never decreases. -/
lemma TurtleSignal.longStep_unit (s : TurtleSignal) (p : TurtlePortfolio)
    (bar : BarData) (entry : Rat) (k : Int) (hk : k ≤ 4) (h : s.unit ≤ 4) :
    (TurtleSignal.longStep s p bar entry k).1.unit ≤ 4 ∧
      s.unit ≤ (TurtleSignal.longStep s p bar entry k).1.unit := by
  unfold TurtleSignal.longStep
  split_ifs with hc
  · obtain ⟨-, hc2⟩ := hc
    rw [TurtleSignal.buy_unit]
    omega
  · exact ⟨h, le_refl _⟩

/-- Bounds for one short entry step: under `unit > -k`, the add keeps
`-4 ≤ -k ≤ unit`, and the unit never increases. -/
lemma TurtleSignal.shortStep_unit (s : TurtleSignal) (p : TurtlePortfolio)
    (bar : BarData) (entry : Rat) (k : Int) (hk : k ≤ 4) (h : -4 ≤ s.unit) :
    -4 ≤ (TurtleSignal.shortStep s p bar entry k).1.unit ∧
      (TurtleSignal.shortStep s p bar entry k).1.unit ≤ s.unit := by
  unfold TurtleSignal.shortStep
  split_ifs with hc
  · obtain ⟨-, hc2⟩ := hc
    rw [TurtleSignal.short_unit]
    omega
  · exact ⟨h, le_refl _⟩

/-- Bounds for the long entry block: each level `k` fires only under
`unit < k`, so the unit never exceeds 4 and never decreases — whichever
level the evaluation stops at (normally or by a raised proposal). -/
lemma TurtleSignal.longPhase_unit_bounds (s : TurtleSignal) (p : TurtlePortfolio)
    (bar : BarData) (h : s.unit ≤ 4) :
    (TurtleSignal.longPhase s p bar).1.unit ≤ 4 ∧
      s.unit ≤ (TurtleSignal.longPhase s p bar).1.unit := by
  simp only [TurtleSignal.longPhase]
  set r1 := TurtleSignal.longStep s p bar s.long_entry_1 1 with hr1
  set r2 := TurtleSignal.longStep r1.1 r1.2.1 bar r1.1.long_entry_2 2 with hr2
  set r3 := TurtleSignal.longStep r2.1 r2.2.1 bar r2.1.long_entry_3 3 with hr3
  set r4 := TurtleSignal.longStep r3.1 r3.2.1 bar r3.1.long_entry_4 4 with hr4
  have b1 := TurtleSignal.longStep_unit s p bar s.long_entry_1 1 (by norm_num) h
  rw [← hr1] at b1
  have b2 := TurtleSignal.longStep_unit r1.1 r1.2.1 bar r1.1.long_entry_2 2 (by norm_num) b1.1
  rw [← hr2] at b2
  have b3 := TurtleSignal.longStep_unit r2.1 r2.2.1 bar r2.1.long_entry_3 3 (by norm_num) b2.1
  rw [← hr3] at b3
  have b4 := TurtleSignal.longStep_unit r3.1 r3.2.1 bar r3.1.long_entry_4 4 (by norm_num) b3.1
  rw [← hr4] at b4
  by_cases c1 : raisedIn r1.2.2 = true
  · rw [if_pos c1]
    exact ⟨b1.1, b1.2⟩
  · rw [if_neg c1]
    by_cases c2 : raisedIn r2.2.2 = true
    · rw [if_pos c2]
      show r2.1.unit ≤ 4 ∧ s.unit ≤ r2.1.unit
      omega
    · rw [if_neg c2]
      by_cases c3 : raisedIn r3.2.2 = true
      · rw [if_pos c3]
        show r3.1.unit ≤ 4 ∧ s.unit ≤ r3.1.unit
        omega
      · rw [if_neg c3]
        show r4.1.unit ≤ 4 ∧ s.unit ≤ r4.1.unit
        omega

/-- Bounds for the short entry block: each level `k` fires only under
`unit > -k`, so the unit never drops below -4 and never increases —
whichever level the evaluation stops at. -/
lemma TurtleSignal.shortPhase_unit_bounds (s : TurtleSignal) (p : TurtlePortfolio)
    (bar : BarData) (h : -4 ≤ s.unit) :
    -4 ≤ (TurtleSignal.shortPhase s p bar).1.unit ∧
      (TurtleSignal.shortPhase s p bar).1.unit ≤ s.unit := by
  simp only [TurtleSignal.shortPhase]
  set r1 := TurtleSignal.shortStep s p bar s.short_entry_1 1 with hr1
  set r2 := TurtleSignal.shortStep r1.1 r1.2.1 bar r1.1.short_entry_2 2 with hr2
  set r3 := TurtleSignal.shortStep r2.1 r2.2.1 bar r2.1.short_entry_3 3 with hr3
  set r4 := TurtleSignal.shortStep r3.1 r3.2.1 bar r3.1.short_entry_4 4 with hr4
  have b1 := TurtleSignal.shortStep_unit s p bar s.short_entry_1 1 (by norm_num) h
  rw [← hr1] at b1
  have b2 := TurtleSignal.shortStep_unit r1.1 r1.2.1 bar r1.1.short_entry_2 2 (by norm_num) b1.1
  rw [← hr2] at b2
  have b3 := TurtleSignal.shortStep_unit r2.1 r2.2.1 bar r2.1.short_entry_3 3 (by norm_num) b2.1
  rw [← hr3] at b3
  have b4 := TurtleSignal.shortStep_unit r3.1 r3.2.1 bar r3.1.short_entry_4 4 (by norm_num) b3.1
  rw [← hr4] at b4
  by_cases c1 : raisedIn r1.2.2 = true
  · rw [if_pos c1]
    exact ⟨b1.1, b1.2⟩
  · rw [if_neg c1]
    by_cases c2 : raisedIn r2.2.2 = true
    · rw [if_pos c2]
      show -4 ≤ r2.1.unit ∧ r2.1.unit ≤ s.unit
      omega
    · rw [if_neg c2]
      by_cases c3 : raisedIn r3.2.2 = true
      · rw [if_pos c3]
        show -4 ≤ r3.1.unit ∧ r3.1.unit ≤ s.unit
        omega
      · rw [if_neg c3]
        show -4 ≤ r4.1.unit ∧ r4.1.unit ≤ s.unit
        omega

/-- `generate_signal` preserves `|unit| ≤ 4`. -/
lemma TurtleSignal.generate_signal_unit_bound (s : TurtleSignal) (p : TurtlePortfolio)
    (bar : BarData) (h : |s.unit| ≤ 4) :
    |(TurtleSignal.generate_signal s p bar).1.unit| ≤ 4 := by
  rw [abs_le] at h
  unfold TurtleSignal.generate_signal
  by_cases h1 : s.long_entry_1 = 0
  · rw [if_pos h1, abs_le]
    exact h
  rw [if_neg h1]
  by_cases h2 : s.unit > 0 ∧ bar.low ≤ max s.long_stop s.exit_down
  · rw [if_pos h2, abs_le, TurtleSignal.sell_unit]
    constructor <;> norm_num
  rw [if_neg h2]
  by_cases h3 : s.unit < 0 ∧ bar.high ≥ min s.short_stop s.exit_up
  · rw [if_pos h3, abs_le, TurtleSignal.cover_unit]
    constructor <;> norm_num
  rw [if_neg h3]
  show |(let r1 := if s.unit ≥ 0 then TurtleSignal.longPhase s p bar else (s, p, []);
        if r1.2.2.isEmpty then
          if r1.1.unit ≤ 0 then TurtleSignal.shortPhase r1.1 r1.2.1 bar else r1
        else r1).1.unit| ≤ 4
  by_cases h4 : s.unit ≥ 0
  · simp only [if_pos h4]
    have hb := TurtleSignal.longPhase_unit_bounds s p bar h.2
    by_cases hz : (TurtleSignal.longPhase s p bar).1.unit ≤ 0
    · by_cases hl : (TurtleSignal.longPhase s p bar).2.2.isEmpty
      · simp only [hl, if_pos hz, if_true, abs_le]
        have hs := TurtleSignal.shortPhase_unit_bounds (TurtleSignal.longPhase s p bar).1
          (TurtleSignal.longPhase s p bar).2.1 bar (by omega)
        omega
      · simp only [Bool.not_eq_true] at hl
        simp only [hl, Bool.false_eq_true, if_false, abs_le]
        omega
    · by_cases hl : (TurtleSignal.longPhase s p bar).2.2.isEmpty
      · simp only [hl, if_neg hz, if_true, abs_le]
        omega
      · simp only [Bool.not_eq_true] at hl
        simp only [hl, Bool.false_eq_true, if_false, abs_le]
        omega
  · simp only [if_neg h4, List.isEmpty_nil, if_true, abs_le]
    have h0 : s.unit ≤ 0 := by omega
    simp only [if_pos h0]
    have hs := TurtleSignal.shortPhase_unit_bounds s p bar h.1
    omega

/-- `on_bar` preserves `|unit| ≤ 4`: warm-up leaves the unit untouched, and
`calculate_indicator` never writes it. -/
lemma TurtleSignal.on_bar_unit_bound (s : TurtleSignal) (p : TurtlePortfolio)
    (bar : BarData) (ind : IndicatorData) (h : |s.unit| ≤ 4) :
    |(TurtleSignal.on_bar s p bar ind).1.unit| ≤ 4 := by
  unfold TurtleSignal.on_bar
  by_cases hi : ind.inited = false
  · rw [if_pos hi]
    exact h
  · rw [if_neg hi]
    show |(if raisedIn (TurtleSignal.generate_signal { s with last_bar := some bar } p bar).2.2
            then TurtleSignal.generate_signal { s with last_bar := some bar } p bar
            else (TurtleSignal.calculate_indicator
                    (TurtleSignal.generate_signal { s with last_bar := some bar } p bar).1 ind,
                  (TurtleSignal.generate_signal { s with last_bar := some bar } p bar).2.1,
                  (TurtleSignal.generate_signal { s with last_bar := some bar } p bar).2.2)).1.unit|
        ≤ 4
    by_cases hr : raisedIn
        (TurtleSignal.generate_signal { s with last_bar := some bar } p bar).2.2 = true
    · rw [if_pos hr]
      exact TurtleSignal.generate_signal_unit_bound { s with last_bar := some bar } p bar h
    · rw [if_neg hr]
      show |(TurtleSignal.calculate_indicator
              (TurtleSignal.generate_signal { s with last_bar := some bar } p bar).1 ind).unit| ≤ 4
      rw [TurtleSignal.calculate_indicator_unit]
      exact TurtleSignal.generate_signal_unit_bound { s with last_bar := some bar } p bar h

/-! ## Helper lemmas: shape of the proposals emitted in one bar -/

lemma TurtleSignal.buy_props (s : TurtleSignal) (p : TurtlePortfolio) (price : Rat)
    (volume : Int) :
    ∀ x ∈ (TurtleSignal.buy s p price volume).2.2,
      x.direction = Direction.LONG ∧ x.offset = Offset.OPEN := by
  simp only [TurtleSignal.buy]
  split
  all_goals
    intro x hx
    cases hx with
    | head => exact ⟨rfl, rfl⟩
    | tail _ h => cases h

lemma TurtleSignal.short_props (s : TurtleSignal) (p : TurtlePortfolio) (price : Rat)
    (volume : Int) :
    ∀ x ∈ (TurtleSignal.short s p price volume).2.2,
      x.direction = Direction.SHORT ∧ x.offset = Offset.OPEN := by
  simp only [TurtleSignal.short]
  split
  all_goals
    intro x hx
    cases hx with
    | head => exact ⟨rfl, rfl⟩
    | tail _ h => cases h

lemma TurtleSignal.sell_props (s : TurtleSignal) (p : TurtlePortfolio) (price : Rat) :
    ∀ x ∈ (TurtleSignal.sell s p price).2.2, x.offset = Offset.CLOSE := by
  intro x hx
  cases hx with
  | head => exact rfl
  | tail _ h => cases h

lemma TurtleSignal.cover_props (s : TurtleSignal) (p : TurtlePortfolio) (price : Rat) :
    ∀ x ∈ (TurtleSignal.cover s p price).2.2, x.offset = Offset.CLOSE := by
  intro x hx
  cases hx with
  | head => exact rfl
  | tail _ h => cases h

lemma TurtleSignal.longStep_props (s : TurtleSignal) (p : TurtlePortfolio)
    (bar : BarData) (entry : Rat) (k : Int) :
    ∀ x ∈ (TurtleSignal.longStep s p bar entry k).2.2,
      x.direction = Direction.LONG ∧ x.offset = Offset.OPEN := by
  unfold TurtleSignal.longStep
  split_ifs with hc
  · exact TurtleSignal.buy_props s p entry 1
  · intro x hx; cases hx

lemma TurtleSignal.shortStep_props (s : TurtleSignal) (p : TurtlePortfolio)
    (bar : BarData) (entry : Rat) (k : Int) :
    ∀ x ∈ (TurtleSignal.shortStep s p bar entry k).2.2,
      x.direction = Direction.SHORT ∧ x.offset = Offset.OPEN := by
  unfold TurtleSignal.shortStep
  split_ifs with hc
  · exact TurtleSignal.short_props s p entry 1
  · intro x hx; cases hx

lemma TurtleSignal.longStep_len (s : TurtleSignal) (p : TurtlePortfolio)
    (bar : BarData) (entry : Rat) (k : Int) :
    (TurtleSignal.longStep s p bar entry k).2.2.length ≤ 1 := by
  unfold TurtleSignal.longStep
  split_ifs <;> simp [TurtleSignal.buy_len]

lemma TurtleSignal.shortStep_len (s : TurtleSignal) (p : TurtlePortfolio)
    (bar : BarData) (entry : Rat) (k : Int) :
    (TurtleSignal.shortStep s p bar entry k).2.2.length ≤ 1 := by
  unfold TurtleSignal.shortStep
  split_ifs <;> simp [TurtleSignal.short_len]

/-- Every proposal of the long entry block is a one-unit long open, and at
most four are emitted, on the normal path as well as on the abort paths. -/
lemma TurtleSignal.longPhase_props (s : TurtleSignal) (p : TurtlePortfolio) (bar : BarData) :
    (∀ x ∈ (TurtleSignal.longPhase s p bar).2.2,
        x.direction = Direction.LONG ∧ x.offset = Offset.OPEN) ∧
      (TurtleSignal.longPhase s p bar).2.2.length ≤ 4 := by
  simp only [TurtleSignal.longPhase]
  set r1 := TurtleSignal.longStep s p bar s.long_entry_1 1 with hr1
  set r2 := TurtleSignal.longStep r1.1 r1.2.1 bar r1.1.long_entry_2 2 with hr2
  set r3 := TurtleSignal.longStep r2.1 r2.2.1 bar r2.1.long_entry_3 3 with hr3
  set r4 := TurtleSignal.longStep r3.1 r3.2.1 bar r3.1.long_entry_4 4 with hr4
  have m1 := TurtleSignal.longStep_props s p bar s.long_entry_1 1
  rw [← hr1] at m1
  have m2 := TurtleSignal.longStep_props r1.1 r1.2.1 bar r1.1.long_entry_2 2
  rw [← hr2] at m2
  have m3 := TurtleSignal.longStep_props r2.1 r2.2.1 bar r2.1.long_entry_3 3
  rw [← hr3] at m3
  have m4 := TurtleSignal.longStep_props r3.1 r3.2.1 bar r3.1.long_entry_4 4
  rw [← hr4] at m4
  have l1 := TurtleSignal.longStep_len s p bar s.long_entry_1 1
  rw [← hr1] at l1
  have l2 := TurtleSignal.longStep_len r1.1 r1.2.1 bar r1.1.long_entry_2 2
  rw [← hr2] at l2
  have l3 := TurtleSignal.longStep_len r2.1 r2.2.1 bar r2.1.long_entry_3 3
  rw [← hr3] at l3
  have l4 := TurtleSignal.longStep_len r3.1 r3.2.1 bar r3.1.long_entry_4 4
  rw [← hr4] at l4
  by_cases c1 : raisedIn r1.2.2 = true
  · rw [if_pos c1]
    exact ⟨m1, by omega⟩
  · rw [if_neg c1]
    by_cases c2 : raisedIn r2.2.2 = true
    · rw [if_pos c2]
      constructor
      · intro x hx
        replace hx : x ∈ r1.2.2 ++ r2.2.2 := hx
        rcases List.mem_append.mp hx with hx | hx
        · exact m1 x hx
        · exact m2 x hx
      · show (r1.2.2 ++ r2.2.2).length ≤ 4
        rw [List.length_append]
        omega
    · rw [if_neg c2]
      by_cases c3 : raisedIn r3.2.2 = true
      · rw [if_pos c3]
        constructor
        · intro x hx
          replace hx : x ∈ r1.2.2 ++ r2.2.2 ++ r3.2.2 := hx
          rcases List.mem_append.mp hx with hx | hx
          · rcases List.mem_append.mp hx with hx | hx
            · exact m1 x hx
            · exact m2 x hx
          · exact m3 x hx
        · show (r1.2.2 ++ r2.2.2 ++ r3.2.2).length ≤ 4
          rw [List.length_append, List.length_append]
          omega
      · rw [if_neg c3]
        constructor
        · intro x hx
          replace hx : x ∈ r1.2.2 ++ r2.2.2 ++ r3.2.2 ++ r4.2.2 := hx
          rcases List.mem_append.mp hx with hx | hx
          · rcases List.mem_append.mp hx with hx | hx
            · rcases List.mem_append.mp hx with hx | hx
              · exact m1 x hx
              · exact m2 x hx
            · exact m3 x hx
          · exact m4 x hx
        · show (r1.2.2 ++ r2.2.2 ++ r3.2.2 ++ r4.2.2).length ≤ 4
          rw [List.length_append, List.length_append, List.length_append]
          omega

/-- Every proposal of the short entry block is a one-unit short open, and at
most four are emitted, on the normal path as well as on the abort paths. -/
lemma TurtleSignal.shortPhase_props (s : TurtleSignal) (p : TurtlePortfolio) (bar : BarData) :
    (∀ x ∈ (TurtleSignal.shortPhase s p bar).2.2,
        x.direction = Direction.SHORT ∧ x.offset = Offset.OPEN) ∧
      (TurtleSignal.shortPhase s p bar).2.2.length ≤ 4 := by
  simp only [TurtleSignal.shortPhase]
  set r1 := TurtleSignal.shortStep s p bar s.short_entry_1 1 with hr1
  set r2 := TurtleSignal.shortStep r1.1 r1.2.1 bar r1.1.short_entry_2 2 with hr2
  set r3 := TurtleSignal.shortStep r2.1 r2.2.1 bar r2.1.short_entry_3 3 with hr3
  set r4 := TurtleSignal.shortStep r3.1 r3.2.1 bar r3.1.short_entry_4 4 with hr4
  have m1 := TurtleSignal.shortStep_props s p bar s.short_entry_1 1
  rw [← hr1] at m1
  have m2 := TurtleSignal.shortStep_props r1.1 r1.2.1 bar r1.1.short_entry_2 2
  rw [← hr2] at m2
  have m3 := TurtleSignal.shortStep_props r2.1 r2.2.1 bar r2.1.short_entry_3 3
  rw [← hr3] at m3
  have m4 := TurtleSignal.shortStep_props r3.1 r3.2.1 bar r3.1.short_entry_4 4
  rw [← hr4] at m4
  have l1 := TurtleSignal.shortStep_len s p bar s.short_entry_1 1
  rw [← hr1] at l1
  have l2 := TurtleSignal.shortStep_len r1.1 r1.2.1 bar r1.1.short_entry_2 2
  rw [← hr2] at l2
  have l3 := TurtleSignal.shortStep_len r2.1 r2.2.1 bar r2.1.short_entry_3 3
  rw [← hr3] at l3
  have l4 := TurtleSignal.shortStep_len r3.1 r3.2.1 bar r3.1.short_entry_4 4
  rw [← hr4] at l4
  by_cases c1 : raisedIn r1.2.2 = true
  · rw [if_pos c1]
    exact ⟨m1, by omega⟩
  · rw [if_neg c1]
    by_cases c2 : raisedIn r2.2.2 = true
    · rw [if_pos c2]
      constructor
      · intro x hx
        replace hx : x ∈ r1.2.2 ++ r2.2.2 := hx
        rcases List.mem_append.mp hx with hx | hx
        · exact m1 x hx
        · exact m2 x hx
      · show (r1.2.2 ++ r2.2.2).length ≤ 4
        rw [List.length_append]
        omega
    · rw [if_neg c2]
      by_cases c3 : raisedIn r3.2.2 = true
      · rw [if_pos c3]
        constructor
        · intro x hx
          replace hx : x ∈ r1.2.2 ++ r2.2.2 ++ r3.2.2 := hx
          rcases List.mem_append.mp hx with hx | hx
          · rcases List.mem_append.mp hx with hx | hx
            · exact m1 x hx
            · exact m2 x hx
          · exact m3 x hx
        · show (r1.2.2 ++ r2.2.2 ++ r3.2.2).length ≤ 4
          rw [List.length_append, List.length_append]
          omega
      · rw [if_neg c3]
        constructor
        · intro x hx
          replace hx : x ∈ r1.2.2 ++ r2.2.2 ++ r3.2.2 ++ r4.2.2 := hx
          rcases List.mem_append.mp hx with hx | hx
          · rcases List.mem_append.mp hx with hx | hx
            · rcases List.mem_append.mp hx with hx | hx
              · exact m1 x hx
              · exact m2 x hx
            · exact m3 x hx
          · exact m4 x hx
        · show (r1.2.2 ++ r2.2.2 ++ r3.2.2 ++ r4.2.2).length ≤ 4
          rw [List.length_append, List.length_append, List.length_append]
          omega

/-! ## Concrete states used by witnesses and counterexamples -/

/-- A freshly constructed signal for instrument "A", as `TurtlePortfolio.init`
builds `signal_1` (lines 275): windows (20, 10, 20), `profit_check = True`,
every price level and the unit zero. -/
def freshSignalA : TurtleSignal :=
  { id := 1, vt_symbol := "A", entry_window := 20, exit_window := 10, atr_window := 20,
    profit_check := true, atr_volatility := 0, entry_up := 0, entry_down := 0,
    exit_up := 0, exit_down := 0, long_entry_1 := 0, long_entry_2 := 0,
    long_entry_3 := 0, long_entry_4 := 0, long_stop := 0, short_entry_1 := 0,
    short_entry_2 := 0, short_entry_3 := 0, short_entry_4 := 0, short_stop := 0,
    unit := 0, last_result := none, results := [], last_bar := none }

/-- A portfolio initialized (lines 269-283) with the single instrument "A",
contract size 10 and portfolio value 10,000,000. -/
def portA : TurtlePortfolio :=
  { units := [("A", 0)], total_long := 0, total_short := 0, trading_signals := [],
    sizes := [("A", 10)], multipliers := [], poses := [("A", 0)],
    portfolio_value := 10000000 }

/-! ## Claim C7 -/

/-- Claim C7: for every stop/breakout fill, `calculate_trade_price` clamps a
buy to `max(bar.open, triggerPrice)` and a sell to `min(bar.open,
triggerPrice)`, and the four trade actions submit exactly that clamped price
in their proposals; hence a fill is never more favorable to the strategy than
the bar's opening price. -/
theorem turtle_C7_trade_price_realism (s : TurtleSignal) (p : TurtlePortfolio)
    (price : Rat) (volume : Int) :
    TurtleSignal.calculate_trade_price s Direction.LONG price
        = max (TurtleSignal.lastBarOpen s) price ∧
    TurtleSignal.calculate_trade_price s Direction.SHORT price
        = min (TurtleSignal.lastBarOpen s) price ∧
    TurtleSignal.lastBarOpen s ≤ TurtleSignal.calculate_trade_price s Direction.LONG price ∧
    TurtleSignal.calculate_trade_price s Direction.SHORT price ≤ TurtleSignal.lastBarOpen s ∧
    (TurtleSignal.buy s p price volume).2.2.map Proposal.price
        = [max (TurtleSignal.lastBarOpen s) price] ∧
    (TurtleSignal.sell s p price).2.2.map Proposal.price
        = [min (TurtleSignal.lastBarOpen s) price] ∧
    (TurtleSignal.short s p price volume).2.2.map Proposal.price
        = [min (TurtleSignal.lastBarOpen s) price] ∧
    (TurtleSignal.cover s p price).2.2.map Proposal.price
        = [max (TurtleSignal.lastBarOpen s) price] := by
  refine ⟨rfl, rfl, le_max_left _ _, min_le_left _ _, ?_, rfl, ?_, rfl⟩
  · simp only [TurtleSignal.buy]
    split <;> rfl
  · simp only [TurtleSignal.short]
    split <;> rfl

/-! ## Claim C4 -/

/-- Claim C4: for every signal and every sequence of bars, `|unit| ≤ 4` holds
after every `on_bar` call — each long entry level `k` fires only under
`unit < k`, each short level only under `unit > -k`, adds exactly one unit,
and every close resets the unit to 0, so the bound is invariant along any run
started within it. -/
theorem turtle_C4_unit_bounded (s : TurtleSignal) (p : TurtlePortfolio)
    (l : List (BarData × IndicatorData)) (h : |s.unit| ≤ 4) :
    |(TurtleSignal.run_bars s p l).1.unit| ≤ 4 := by
  induction l generalizing s p with
  | nil => exact h
  | cons bi rest ih =>
    show |(TurtleSignal.run_bars (TurtleSignal.on_bar s p bi.1 bi.2).1
            (TurtleSignal.on_bar s p bi.1 bi.2).2.1 rest).1.unit| ≤ 4
    exact ih _ _ (TurtleSignal.on_bar_unit_bound s p bi.1 bi.2 h)

/-- Witness for C4 at a concrete input: a fresh signal, one bar. -/
theorem turtle_C4_unit_bounded_witness :
    |freshSignalA.unit| ≤ 4 ∧
      |(TurtleSignal.run_bars freshSignalA portA
          [({ vt_symbol := "A", open_price := 100, high := 110, low := 95, close := 105 },
            { inited := true, entryUp := 108, entryDown := 96, exitUp := 107,
              exitDown := 97, atr := 5 })]).1.unit| ≤ 4 :=
  ⟨by decide,
   turtle_C4_unit_bounded freshSignalA portA
     [({ vt_symbol := "A", open_price := 100, high := 110, low := 95, close := 105 },
       { inited := true, entryUp := 108, entryDown := 96, exitUp := 107,
         exitDown := 97, atr := 5 })] (by decide)⟩

/-! ## Claim C3 -/

/-- Claim C3 (amended): in one `on_bar`/`generate_signal` evaluation only one
*class* of action fires — a single full close, or long opens only, or short
opens only — and between zero and four one-unit adds are emitted.  The four
entry levels are sequential `if`s, so every not-yet-filled level whose
threshold the bar crosses fires in the same call as long as each proposal
returns normally (e.g. a silent rejection); a proposal that raises (with
this engine, every accepted hand-off) aborts the evaluation after its add. -/
theorem turtle_C3_one_action_class_per_bar (s : TurtleSignal) (p : TurtlePortfolio)
    (bar : BarData) :
    (TurtleSignal.generate_signal s p bar).2.2.length ≤ 4 ∧
    ((∀ x ∈ (TurtleSignal.generate_signal s p bar).2.2,
        x.direction = Direction.LONG ∧ x.offset = Offset.OPEN) ∨
     (∀ x ∈ (TurtleSignal.generate_signal s p bar).2.2,
        x.direction = Direction.SHORT ∧ x.offset = Offset.OPEN) ∨
     ((TurtleSignal.generate_signal s p bar).2.2.length = 1 ∧
        ∀ x ∈ (TurtleSignal.generate_signal s p bar).2.2, x.offset = Offset.CLOSE)) := by
  unfold TurtleSignal.generate_signal
  by_cases h1 : s.long_entry_1 = 0
  · rw [if_pos h1]
    exact ⟨by simp, Or.inl (by intro x hx; cases hx)⟩
  rw [if_neg h1]
  by_cases h2 : s.unit > 0 ∧ bar.low ≤ max s.long_stop s.exit_down
  · rw [if_pos h2]
    exact ⟨by simp [TurtleSignal.sell], Or.inr (Or.inr ⟨rfl, TurtleSignal.sell_props s p _⟩)⟩
  rw [if_neg h2]
  by_cases h3 : s.unit < 0 ∧ bar.high ≥ min s.short_stop s.exit_up
  · rw [if_pos h3]
    exact ⟨by simp [TurtleSignal.cover], Or.inr (Or.inr ⟨rfl, TurtleSignal.cover_props s p _⟩)⟩
  rw [if_neg h3]
  show (let r1 := if s.unit ≥ 0 then TurtleSignal.longPhase s p bar else (s, p, []);
        if r1.2.2.isEmpty then
          if r1.1.unit ≤ 0 then TurtleSignal.shortPhase r1.1 r1.2.1 bar else r1
        else r1).2.2.length ≤ 4 ∧ _
  by_cases h4 : s.unit ≥ 0
  · simp only [if_pos h4]
    by_cases hl : (TurtleSignal.longPhase s p bar).2.2.isEmpty
    · by_cases hz : (TurtleSignal.longPhase s p bar).1.unit ≤ 0
      · simp only [hl, if_pos hz, if_true]
        exact ⟨(TurtleSignal.shortPhase_props _ _ bar).2,
               Or.inr (Or.inl (TurtleSignal.shortPhase_props _ _ bar).1)⟩
      · simp only [hl, if_neg hz, if_true]
        exact ⟨(TurtleSignal.longPhase_props s p bar).2,
               Or.inl (TurtleSignal.longPhase_props s p bar).1⟩
    · simp only [Bool.not_eq_true] at hl
      simp only [hl, Bool.false_eq_true, if_false]
      exact ⟨(TurtleSignal.longPhase_props s p bar).2,
             Or.inl (TurtleSignal.longPhase_props s p bar).1⟩
  · simp only [if_neg h4, List.isEmpty_nil, if_true]
    have h0 : s.unit ≤ 0 := by omega
    simp only [if_pos h0]
    exact ⟨(TurtleSignal.shortPhase_props s p bar).2,
           Or.inr (Or.inl (TurtleSignal.shortPhase_props s p bar).1)⟩

/-- A signal for "A" whose entry levels are armed at 10 / 11 / 12 / 13 (flat,
ATR snapshot 2), with `profit_check` set and a profitable last round trip —
so each of its proposals is silently rejected (a plain `return`, no
exception) — about to receive a bar that gaps through all four levels. -/
def sigC3 : TurtleSignal :=
  { id := 1, vt_symbol := "A", entry_window := 20, exit_window := 10, atr_window := 20,
    profit_check := true, atr_volatility := 2, entry_up := 10, entry_down := 5,
    exit_up := 9, exit_down := 6, long_entry_1 := 10, long_entry_2 := 11,
    long_entry_3 := 12, long_entry_4 := 13, long_stop := 0, short_entry_1 := 5,
    short_entry_2 := 4, short_entry_3 := 3, short_entry_4 := 2, short_stop := 0,
    unit := 0, last_result := none,
    results := [{ unit := 1, entry := 10, exit := 20, pnl := 10 }], last_bar := none }

/-- The gap bar: its high 20 crosses all four armed entry levels at once. -/
def barC3 : BarData :=
  { vt_symbol := "A", open_price := 9, high := 20, low := 8, close := 19 }

def indC3 : IndicatorData :=
  { inited := true, entryUp := 10, entryDown := 5, exitUp := 9, exitDown := 6, atr := 2 }

/-- Counterexample to C3 as stated: on a single `on_bar` call from a flat
state, the bar gapping over all four armed levels adds FOUR units, not at
most one — all four sequential entry `if`s fire, each proposal returning as
a silent profit-check rejection (no exception is raised), so evaluation does
not stop at the first firing level. -/
theorem turtle_C3_counterexample :
    (TurtleSignal.on_bar sigC3 portA barC3 indC3).1.unit = 4 ∧
    (TurtleSignal.on_bar sigC3 portA barC3 indC3).2.2.map Proposal.outcome
      = [ProposalOutcome.rejected "previous trade was profitable",
         ProposalOutcome.rejected "previous trade was profitable",
         ProposalOutcome.rejected "previous trade was profitable",
         ProposalOutcome.rejected "previous trade was profitable"] ∧
    sigC3.unit = 0 := by
  refine ⟨?_, ?_, rfl⟩ <;> rfl

/-! ## Helper lemmas: the allocator's multiplier map -/

lemma alGet_alSet_self {α : Type} (m : List (String × α)) (k : String) (v : α) :
    alGet (alSet m k v) k = some v := by
  induction m with
  | nil => simp [alSet, alGet]
  | cons kv rest ih =>
    obtain ⟨k', v'⟩ := kv
    by_cases h : k' = k
    · simp [alSet, alGet, h]
    · simp [alSet, alGet, h, ih]

lemma TurtlePortfolio.send_order_multipliers (p : TurtlePortfolio) (sym : String)
    (d : Direction) (o : Offset) (pr : Rat) (v m : Int) :
    (TurtlePortfolio.send_order p sym d o pr v m).1.multipliers = p.multipliers := by
  unfold TurtlePortfolio.send_order
  cases hu : alGet p.units sym with
  | none => rfl
  | some u =>
    simp only [hu]
    cases hq : alGet p.poses sym with
    | none => simp [hq]
    | some q => simp [hq]

lemma TurtlePortfolio.set_and_send_multipliers (p : TurtlePortfolio) (sig : TurtleSignal)
    (d : Direction) (o : Offset) (pr : Rat) (v m : Int) :
    (TurtlePortfolio.set_and_send p sig d o pr v m).1.multipliers = p.multipliers := by
  unfold TurtlePortfolio.set_and_send
  split_ifs with h1
  · simp only [TurtlePortfolio.send_order_multipliers]
  · cases ht : alGet p.trading_signals sig.vt_symbol with
    | none => simp [ht]
    | some i => simp [ht, TurtlePortfolio.send_order_multipliers]

lemma TurtlePortfolio.check_and_send_multipliers (p : TurtlePortfolio) (sig : TurtleSignal)
    (d : Direction) (o : Offset) (pr : Rat) (v m : Int) :
    (TurtlePortfolio.check_and_send p sig d o pr v m).1.multipliers = p.multipliers := by
  unfold TurtlePortfolio.check_and_send
  cases ht : alGet p.trading_signals sig.vt_symbol with
  | none => simp [ht, TurtlePortfolio.set_and_send_multipliers]
  | some i =>
    simp only [ht]
    split_ifs with h1
    · exact TurtlePortfolio.set_and_send_multipliers p sig d o pr v m
    · rfl

/-- The shared gate of `new_signal` never writes the multiplier map. -/
lemma TurtlePortfolio.gate_multipliers (p : TurtlePortfolio) (sig : TurtleSignal)
    (d : Direction) (o : Offset) (pr : Rat) (v u m : Int) :
    (TurtlePortfolio.gate p sig d o pr v u m).1.multipliers = p.multipliers := by
  unfold TurtlePortfolio.gate
  split_ifs <;>
    first
      | rfl
      | rw [TurtlePortfolio.check_and_send_multipliers]

/-! ## Claim C8 -/

/-- Claim C8: on any proposal arriving while the instrument is flat
(`units[vt_symbol] == 0`), the allocator recomputes and stores the size
multiplier as `round(0.01 × portfolio_value / (atr_volatility × size))`
(Python banker's rounding); on any proposal arriving while the instrument
holds units, the stored multiplier map is left entirely unchanged (frozen
until the instrument returns to zero units). -/
theorem turtle_C8_multiplier_formula (p : TurtlePortfolio) (sig : TurtleSignal)
    (d : Direction) (o : Offset) (pr : Rat) (v : Int) :
    (∀ size, alGet p.units sig.vt_symbol = some 0 →
        alGet p.sizes sig.vt_symbol = some size →
        alGet (TurtlePortfolio.new_signal p sig d o pr v).1.multipliers sig.vt_symbol
          = some (pyRound (p.portfolio_value * 0.01 / (sig.atr_volatility * size)))) ∧
    (∀ u, alGet p.units sig.vt_symbol = some u → u ≠ 0 →
        (TurtlePortfolio.new_signal p sig d o pr v).1.multipliers = p.multipliers) := by
  constructor
  · intro size h0 hs
    unfold TurtlePortfolio.new_signal
    split
    · next heq => rw [h0] at heq; cases heq
    · next u heq =>
      rw [h0] at heq
      injection heq with hu
      subst hu
      rw [if_pos (rfl : (0 : Int) = 0)]
      split
      · next heq2 => rw [hs] at heq2; cases heq2
      · next sz heq2 =>
        rw [hs] at heq2
        injection heq2 with hsz
        subst hsz
        simp only [TurtlePortfolio.gate_multipliers]
        exact alGet_alSet_self p.multipliers sig.vt_symbol _
  · intro u h0 hu
    unfold TurtlePortfolio.new_signal
    split
    · next heq => exact Option.noConfusion (h0.symm.trans heq)
    · next u' heq =>
      rw [h0] at heq
      injection heq with hu'
      subst hu'
      rw [if_neg hu]
      split
      · rfl
      · simp only [TurtlePortfolio.gate_multipliers]

/-- The signal at the moment of the flat-to-open transition of the C8
scenario: volatility estimate 5.0. -/
def sigC8 : TurtleSignal := { freshSignalA with atr_volatility := 5, profit_check := false }

/-- Witness for C8 at the spec's concrete scenario: portfolio value
10,000,000, contract size 10, volatility 5.0, flat instrument — the stored
multiplier is `round(0.01 × 10000000 / (5 × 10)) = 2000`. -/
theorem turtle_C8_multiplier_formula_witness :
    alGet portA.units sigC8.vt_symbol = some 0 ∧
    alGet portA.sizes sigC8.vt_symbol = some 10 ∧
    alGet (TurtlePortfolio.new_signal portA sigC8 Direction.LONG Offset.OPEN 100 1).1.multipliers
        sigC8.vt_symbol = some 2000 := by
  refine ⟨rfl, rfl, ?_⟩
  have h := (turtle_C8_multiplier_formula portA sigC8 Direction.LONG Offset.OPEN 100 1).1
    10 rfl rfl
  rw [h]
  norm_num [pyRound, portA, sigC8, freshSignalA]

/-! ## Helper lemmas: rejected or excluded proposals never reach `send_order` -/

lemma outcomeOfExcept_ne_rejected (e : Except String Unit) (r : String) :
    outcomeOfExcept e ≠ ProposalOutcome.rejected r := by
  cases e <;> simp [outcomeOfExcept]

lemma TurtlePortfolio.set_and_send_ne_rejected (p : TurtlePortfolio) (sig : TurtleSignal)
    (d : Direction) (o : Offset) (pr : Rat) (v m : Int) (r : String) :
    (TurtlePortfolio.set_and_send p sig d o pr v m).2 ≠ ProposalOutcome.rejected r := by
  unfold TurtlePortfolio.set_and_send
  split_ifs with h1
  · exact outcomeOfExcept_ne_rejected _ r
  · cases ht : alGet p.trading_signals sig.vt_symbol with
    | none => simp [ht]
    | some i =>
      simp only [ht]
      exact outcomeOfExcept_ne_rejected _ r

/-- A rejection in the exclusivity check leaves the portfolio untouched. -/
lemma TurtlePortfolio.check_and_send_rejected_eq (p : TurtlePortfolio) (sig : TurtleSignal)
    (d : Direction) (o : Offset) (pr : Rat) (v m : Int) (r : String)
    (h : (TurtlePortfolio.check_and_send p sig d o pr v m).2 = ProposalOutcome.rejected r) :
    (TurtlePortfolio.check_and_send p sig d o pr v m).1 = p := by
  unfold TurtlePortfolio.check_and_send at h ⊢
  cases ht : alGet p.trading_signals sig.vt_symbol with
  | none =>
    simp only [ht] at h
    exact absurd h (TurtlePortfolio.set_and_send_ne_rejected p sig d o pr v m r)
  | some i =>
    simp only [ht] at h ⊢
    split_ifs at h ⊢ with hi
    · exact absurd h (TurtlePortfolio.set_and_send_ne_rejected p sig d o pr v m r)
    · rfl

/-- A rejection anywhere in the gate leaves the portfolio untouched. -/
lemma TurtlePortfolio.gate_rejected_eq (p : TurtlePortfolio) (sig : TurtleSignal)
    (d : Direction) (o : Offset) (pr : Rat) (v u m : Int) (r : String)
    (h : (TurtlePortfolio.gate p sig d o pr v u m).2 = ProposalOutcome.rejected r) :
    (TurtlePortfolio.gate p sig d o pr v u m).1 = p := by
  unfold TurtlePortfolio.gate at h ⊢
  split_ifs at h ⊢ <;>
    first
      | rfl
      | exact TurtlePortfolio.check_and_send_rejected_eq _ _ _ _ _ _ _ _ h

/-- Any rejected `new_signal` proposal leaves `units`, `poses`, the
directional totals and `trading_signals` exactly as they were (only the
`multipliers` entry may have been recomputed while flat). -/
lemma TurtlePortfolio.new_signal_rejected_core (p : TurtlePortfolio) (sig : TurtleSignal)
    (d : Direction) (o : Offset) (pr : Rat) (v : Int) (r : String)
    (h : (TurtlePortfolio.new_signal p sig d o pr v).2 = ProposalOutcome.rejected r) :
    (TurtlePortfolio.new_signal p sig d o pr v).1.units = p.units ∧
    (TurtlePortfolio.new_signal p sig d o pr v).1.poses = p.poses ∧
    (TurtlePortfolio.new_signal p sig d o pr v).1.total_long = p.total_long ∧
    (TurtlePortfolio.new_signal p sig d o pr v).1.total_short = p.total_short ∧
    (TurtlePortfolio.new_signal p sig d o pr v).1.trading_signals = p.trading_signals := by
  unfold TurtlePortfolio.new_signal at h ⊢
  cases hu : alGet p.units sig.vt_symbol with
  | none =>
    simp only [hu] at h
    exact ProposalOutcome.noConfusion h
  | some u =>
    simp only [hu] at h ⊢
    by_cases h0 : u = 0
    · rw [if_pos h0] at h ⊢
      cases hs : alGet p.sizes sig.vt_symbol with
      | none =>
        simp only [hs] at h
        exact ProposalOutcome.noConfusion h
      | some size =>
        simp only [hs] at h ⊢
        have hg := TurtlePortfolio.gate_rejected_eq _ sig d o pr v u _ r h
        rw [hg]
        exact ⟨rfl, rfl, rfl, rfl, rfl⟩
    · rw [if_neg h0] at h ⊢
      cases hm : alGet p.multipliers sig.vt_symbol with
      | none =>
        simp only [hm] at h
        exact ProposalOutcome.noConfusion h
      | some m =>
        simp only [hm] at h ⊢
        have hg := TurtlePortfolio.gate_rejected_eq p sig d o pr v u m r h
        rw [hg]
        exact ⟨rfl, rfl, rfl, rfl, rfl⟩

lemma TurtlePortfolio.check_and_send_other (p : TurtlePortfolio) (sig : TurtleSignal)
    (d : Direction) (o : Offset) (pr : Rat) (v m : Int) (i : Nat)
    (hact : alGet p.trading_signals sig.vt_symbol = some i) (hne : i ≠ sig.id) :
    TurtlePortfolio.check_and_send p sig d o pr v m
      = (p, ProposalOutcome.rejected "another signal is active for this vt_symbol") := by
  unfold TurtlePortfolio.check_and_send
  simp only [hact]
  rw [if_neg hne]

/-- With another signal holding the instrument, the gate never mutates the
portfolio and never reaches the engine. -/
lemma TurtlePortfolio.gate_other (p : TurtlePortfolio) (sig : TurtleSignal)
    (d : Direction) (o : Offset) (pr : Rat) (v u m : Int) (i : Nat)
    (hact : alGet p.trading_signals sig.vt_symbol = some i) (hne : i ≠ sig.id) :
    (TurtlePortfolio.gate p sig d o pr v u m).1 = p ∧
      (TurtlePortfolio.gate p sig d o pr v u m).2 ≠ ProposalOutcome.sent := by
  unfold TurtlePortfolio.gate
  split_ifs <;>
    first
      | exact ⟨rfl, by simp⟩
      | (rw [TurtlePortfolio.check_and_send_other p sig _ _ _ _ _ i hact hne]
         exact ⟨rfl, by simp⟩)

/-- With another signal holding the instrument, `new_signal` leaves `units`,
`poses`, the totals and `trading_signals` unchanged and never reaches the
engine recorder (only the flat-state multiplier recomputation may occur). -/
lemma TurtlePortfolio.new_signal_other_core (p : TurtlePortfolio) (sig : TurtleSignal)
    (d : Direction) (o : Offset) (pr : Rat) (v : Int) (i : Nat)
    (hact : alGet p.trading_signals sig.vt_symbol = some i) (hne : i ≠ sig.id) :
    (TurtlePortfolio.new_signal p sig d o pr v).1.units = p.units ∧
    (TurtlePortfolio.new_signal p sig d o pr v).1.poses = p.poses ∧
    (TurtlePortfolio.new_signal p sig d o pr v).1.total_long = p.total_long ∧
    (TurtlePortfolio.new_signal p sig d o pr v).1.total_short = p.total_short ∧
    (TurtlePortfolio.new_signal p sig d o pr v).1.trading_signals = p.trading_signals ∧
    (TurtlePortfolio.new_signal p sig d o pr v).2 ≠ ProposalOutcome.sent := by
  unfold TurtlePortfolio.new_signal
  cases hu : alGet p.units sig.vt_symbol with
  | none => exact ⟨rfl, rfl, rfl, rfl, rfl, by simp⟩
  | some u =>
    simp only [hu]
    by_cases h0 : u = 0
    · rw [if_pos h0]
      cases hs : alGet p.sizes sig.vt_symbol with
      | none => exact ⟨rfl, rfl, rfl, rfl, rfl, by simp⟩
      | some size =>
        simp only [hs]
        set mlt := pyRound (p.portfolio_value * 0.01 / (sig.atr_volatility * size)) with hmlt
        have hg := TurtlePortfolio.gate_other
          { p with multipliers := alSet p.multipliers sig.vt_symbol mlt }
          sig d o pr v u mlt i hact hne
        rw [hg.1]
        exact ⟨rfl, rfl, rfl, rfl, rfl, hg.2⟩
    · rw [if_neg h0]
      cases hm : alGet p.multipliers sig.vt_symbol with
      | none => exact ⟨rfl, rfl, rfl, rfl, rfl, by simp⟩
      | some m =>
        simp only [hm]
        have hg := TurtlePortfolio.gate_other p sig d o pr v u m i hact hne
        rw [hg.1]
        exact ⟨rfl, rfl, rfl, rfl, rfl, hg.2⟩

/-! ## Claim C1 -/

/-- Claim C1 (amended): a rejected proposal (profit check, directional cap,
per-product cap, nothing-to-close, or exclusivity) leaves the *allocator's*
position state — `units`, `poses`, `total_long`, `total_short`,
`trading_signals` — unchanged (only the flat-state size multiplier may have
been recomputed); the proposing signal, however, has already mutated its own
`unit` (and its open-trade record and stop) *before* the proposal, as
`buy` runs `self.open` and sets the stop regardless of the outcome. -/
theorem turtle_C1_rejection_state (p : TurtlePortfolio) (sig : TurtleSignal)
    (d : Direction) (o : Offset) (pr : Rat) (v : Int) (r : String)
    (h : (TurtlePortfolio.new_signal p sig d o pr v).2 = ProposalOutcome.rejected r) :
    ((TurtlePortfolio.new_signal p sig d o pr v).1.units = p.units ∧
     (TurtlePortfolio.new_signal p sig d o pr v).1.poses = p.poses ∧
     (TurtlePortfolio.new_signal p sig d o pr v).1.total_long = p.total_long ∧
     (TurtlePortfolio.new_signal p sig d o pr v).1.total_short = p.total_short ∧
     (TurtlePortfolio.new_signal p sig d o pr v).1.trading_signals = p.trading_signals) ∧
    (TurtleSignal.buy sig p pr v).1.unit = sig.unit + v ∧
    (∀ r', (TurtlePortfolio.new_signal p
        (TurtleSignal.openPosition sig
          (TurtleSignal.calculate_trade_price sig Direction.LONG pr) v)
        Direction.LONG Offset.OPEN
        (TurtleSignal.calculate_trade_price sig Direction.LONG pr) v).2
          = ProposalOutcome.rejected r' →
      (TurtleSignal.buy sig p pr v).1.long_stop
        = TurtleSignal.calculate_trade_price sig Direction.LONG pr
            - sig.atr_volatility * 2) := by
  refine ⟨TurtlePortfolio.new_signal_rejected_core p sig d o pr v r h,
          TurtleSignal.buy_unit sig p pr v, ?_⟩
  intro r' hb
  simp only [TurtleSignal.buy, hb]
  rfl

/-- The proposing signal of the C1 scenario: `profit_check` is set and its
last round trip is profitable (pnl 10), so its next open will be rejected. -/
def sigC1 : TurtleSignal :=
  { freshSignalA with
      atr_volatility := 5,
      results := [{ unit := 1, entry := 10, exit := 20, pnl := 10 }],
      last_bar := some { vt_symbol := "A", open_price := 100, high := 110, low := 95, close := 105 } }

/-- Witness for C1 (amended) at a concrete rejected proposal. -/
theorem turtle_C1_rejection_state_witness :
    (TurtlePortfolio.new_signal portA sigC1 Direction.LONG Offset.OPEN 100 1).2
        = ProposalOutcome.rejected "previous trade was profitable" ∧
    (((TurtlePortfolio.new_signal portA sigC1 Direction.LONG Offset.OPEN 100 1).1.units
          = portA.units ∧
      (TurtlePortfolio.new_signal portA sigC1 Direction.LONG Offset.OPEN 100 1).1.poses
          = portA.poses ∧
      (TurtlePortfolio.new_signal portA sigC1 Direction.LONG Offset.OPEN 100 1).1.total_long
          = portA.total_long ∧
      (TurtlePortfolio.new_signal portA sigC1 Direction.LONG Offset.OPEN 100 1).1.total_short
          = portA.total_short ∧
      (TurtlePortfolio.new_signal portA sigC1 Direction.LONG Offset.OPEN 100 1).1.trading_signals
          = portA.trading_signals) ∧
     (TurtleSignal.buy sigC1 portA 100 1).1.unit = sigC1.unit + 1 ∧
     (TurtleSignal.buy sigC1 portA 100 1).1.long_stop
       = TurtleSignal.calculate_trade_price sigC1 Direction.LONG 100
           - sigC1.atr_volatility * 2) := by
  have H := turtle_C1_rejection_state portA sigC1 Direction.LONG Offset.OPEN 100 1
    "previous trade was profitable" rfl
  exact ⟨rfl, H.1, H.2.1, H.2.2 "previous trade was profitable" rfl⟩

/-- Counterexample to C1 as stated: this proposal is rejected (profit check),
yet the proposing signal's own `unit` has gone from 0 to 1, its open-trade
record now exists, and its stop level moved from 0 to 90 — the signal's local
state changed *before* (and despite) the rejection.  Only the allocator's own
maps are unchanged. -/
theorem turtle_C1_counterexample :
    (TurtleSignal.buy sigC1 portA 100 1).2.2.map Proposal.outcome
        = [ProposalOutcome.rejected "previous trade was profitable"] ∧
    (TurtleSignal.buy sigC1 portA 100 1).1.unit = 1 ∧
    sigC1.unit = 0 ∧
    (TurtleSignal.buy sigC1 portA 100 1).1.last_result.isSome = true ∧
    sigC1.last_result = none ∧
    (TurtleSignal.buy sigC1 portA 100 1).1.long_stop = 90 ∧
    sigC1.long_stop = 0 ∧
    (TurtleSignal.buy sigC1 portA 100 1).2.1.units = portA.units ∧
    (TurtleSignal.buy sigC1 portA 100 1).2.1.trading_signals = portA.trading_signals := by
  refine ⟨rfl, rfl, rfl, rfl, rfl, ?_, rfl, rfl, rfl⟩
  have e : (TurtleSignal.buy sigC1 portA 100 1).1.long_stop = (100 : Rat) - 5 * 2 := rfl
  rw [e]
  norm_num

/-! ## Claim C2 -/

/-- Claim C2 (amended): the `trading_signals` handle does enforce exclusivity
at the *allocator* level — while another signal is recorded for the
instrument, any proposal from a different signal is turned back (rejected or
errored, never `sent`) with `units`, `poses`, the totals and the handle
itself unchanged — but it does not constrain the signals' *local*
`unitCount`s, which are mutated before proposing; and the handle is popped on
every accepted close, not only one that flattens the instrument. -/
theorem turtle_C2_allocator_exclusivity (p : TurtlePortfolio) (sig : TurtleSignal)
    (d : Direction) (o : Offset) (pr : Rat) (v : Int) (i : Nat)
    (hact : alGet p.trading_signals sig.vt_symbol = some i) (hne : i ≠ sig.id) :
    (TurtlePortfolio.new_signal p sig d o pr v).1.units = p.units ∧
    (TurtlePortfolio.new_signal p sig d o pr v).1.poses = p.poses ∧
    (TurtlePortfolio.new_signal p sig d o pr v).1.total_long = p.total_long ∧
    (TurtlePortfolio.new_signal p sig d o pr v).1.total_short = p.total_short ∧
    (TurtlePortfolio.new_signal p sig d o pr v).1.trading_signals = p.trading_signals ∧
    (TurtlePortfolio.new_signal p sig d o pr v).2 ≠ ProposalOutcome.sent :=
  TurtlePortfolio.new_signal_other_core p sig d o pr v i hact hne

/-- First signal of the C2 scenario (id 1): `profit_check` set with a
profitable last trade, so its own open proposal is rejected — but `buy` has
already set its local `unit` to 1. -/
def sigC2a : TurtleSignal :=
  { freshSignalA with
      id := 1,
      atr_volatility := 5,
      results := [{ unit := 1, entry := 10, exit := 20, pnl := 10 }],
      last_bar := some { vt_symbol := "A", open_price := 100, high := 110, low := 95, close := 105 } }

/-- Second signal of the C2 scenario (id 2), same instrument "A", no profit
check: its open is accepted by the gate (and then errors at the engine
hand-off, after the allocator state was mutated). -/
def sigC2b : TurtleSignal :=
  { freshSignalA with
      id := 2,
      profit_check := false,
      atr_volatility := 5,
      last_bar := some { vt_symbol := "A", open_price := 100, high := 110, low := 95, close := 105 } }

def c2step1 : TurtleSignal × TurtlePortfolio × List Proposal :=
  TurtleSignal.buy sigC2a portA 100 1

def c2step2 : TurtleSignal × TurtlePortfolio × List Proposal :=
  TurtleSignal.buy sigC2b c2step1.2.1 100 1

/-- Counterexample to C2 as stated: after these two `buy` calls on the same
instrument "A", BOTH signals hold `unitCount = 1` at the same execution point
(the moment signal 2's engine hand-off raises): signal 1's proposal was
rejected by the profit check but its local unit was already incremented, and
signal 2's accepted open incremented its local unit before the hand-off.
The exclusivity handle never even saw signal 1. -/
theorem turtle_C2_counterexample :
    sigC2a.vt_symbol = "A" ∧ sigC2b.vt_symbol = "A" ∧ sigC2a.id ≠ sigC2b.id ∧
    c2step1.1.unit = 1 ∧ c2step2.1.unit = 1 ∧
    c2step1.2.2.map Proposal.outcome
      = [ProposalOutcome.rejected "previous trade was profitable"] ∧
    c2step2.2.2.map Proposal.outcome
      = [ProposalOutcome.errored
          "AttributeError: BacktestingEngine object has no attribute send_order"] :=
  ⟨rfl, rfl, by decide, rfl, rfl, rfl, rfl⟩

/-- The portfolio of the C2 witness: signal 1 owns the "A" position. -/
def portC2w : TurtlePortfolio :=
  { portA with
      units := [("A", 1)], total_long := 1,
      trading_signals := [("A", 1)],
      multipliers := [("A", 2000)], poses := [("A", 2000)] }

/-- Witness for C2 (amended) at a concrete input: a proposal from signal 2
while signal 1 owns the instrument. -/
theorem turtle_C2_allocator_exclusivity_witness :
    alGet portC2w.trading_signals sigC2b.vt_symbol = some 1 ∧ (1 : Nat) ≠ sigC2b.id ∧
    ((TurtlePortfolio.new_signal portC2w sigC2b Direction.LONG Offset.OPEN 100 1).1.units
        = portC2w.units ∧
     (TurtlePortfolio.new_signal portC2w sigC2b Direction.LONG Offset.OPEN 100 1).1.poses
        = portC2w.poses ∧
     (TurtlePortfolio.new_signal portC2w sigC2b Direction.LONG Offset.OPEN 100 1).1.total_long
        = portC2w.total_long ∧
     (TurtlePortfolio.new_signal portC2w sigC2b Direction.LONG Offset.OPEN 100 1).1.total_short
        = portC2w.total_short ∧
     (TurtlePortfolio.new_signal portC2w sigC2b Direction.LONG Offset.OPEN 100 1).1.trading_signals
        = portC2w.trading_signals ∧
     (TurtlePortfolio.new_signal portC2w sigC2b Direction.LONG Offset.OPEN 100 1).2
        ≠ ProposalOutcome.sent) :=
  ⟨rfl, by decide,
   turtle_C2_allocator_exclusivity portC2w sigC2b Direction.LONG Offset.OPEN 100 1 1
     rfl (by decide)⟩

/-! ## Claim C6 -/

/-- The signal of the C6 scenario: no profit check, volatility 5, last bar
open 100 — its long open on the flat instrument "A" passes every gate check. -/
def sigC6 : TurtleSignal :=
  { freshSignalA with
      id := 7,
      profit_check := false,
      atr_volatility := 5,
      last_bar := some { vt_symbol := "A", open_price := 100, high := 110, low := 95, close := 105 } }

/-- Claim C6: an accepted proposal's hand-off to the engine recorder fails —
`TurtlePortfolio.send_order` first mutates `units`, `poses`, the totals and
`trading_signals`, then calls `self.engine.send_order(...)`, but the engine
only defines `sendOrder`, so the attribute lookup raises `AttributeError`
*after* the allocator's position state has already been mutated. -/
theorem turtle_C6_engine_handoff_attribute_error :
    (TurtlePortfolio.new_signal portA sigC6 Direction.LONG Offset.OPEN 100 1).2
        = ProposalOutcome.errored
            "AttributeError: BacktestingEngine object has no attribute send_order" ∧
    alGet portA.units "A" = some 0 ∧
    alGet (TurtlePortfolio.new_signal portA sigC6 Direction.LONG Offset.OPEN 100 1).1.units "A"
        = some 1 ∧
    portA.total_long = 0 ∧
    (TurtlePortfolio.new_signal portA sigC6 Direction.LONG Offset.OPEN 100 1).1.total_long = 1 ∧
    alGet (TurtlePortfolio.new_signal portA sigC6 Direction.LONG Offset.OPEN 100 1).1.trading_signals
        "A" = some sigC6.id ∧
    alGet (TurtlePortfolio.new_signal portA sigC6 Direction.LONG Offset.OPEN 100 1).1.poses "A"
        = some 2000 ∧
    "send_order" ∉ BacktestingEngine.attributeNames ∧
    "sendOrder" ∈ BacktestingEngine.attributeNames := by
  refine ⟨rfl, rfl, rfl, rfl, rfl, rfl, ?_, by decide, by decide⟩
  have e : alGet (TurtlePortfolio.new_signal portA sigC6 Direction.LONG Offset.OPEN 100 1).1.poses
      "A" = some ((0 : Int)
        + 1 * pyRound (portA.portfolio_value * 0.01 / (sigC6.atr_volatility * 10))) := rfl
  rw [e]
  norm_num [pyRound, portA, sigC6, freshSignalA]

/-! ## Claim C10 -/

/-- Claim C10: for every daily ledger on which at least one fill was recorded,
finalization fails — `calculate_trading_pnl` reads `self.closes[sym]` and then
`self.sizes[sym]`, and `sizes` (like `slippages`, `variable_commissions`,
`fixed_commissions`, and the unimported name `Direction`) is not an attribute
of `DailyResult` — so `calculate_pnl` raises instead of producing the day's
trading PnL, commission and slippage. -/
theorem turtle_C10_day_with_fills_raises (r : DailyResult) (sym : String)
    (l : List TradeData) (rest : List (String × List TradeData))
    (ht : r.trades = (sym, l) :: rest) :
    ∃ e, DailyResult.calculate_pnl r = Except.error e := by
  unfold DailyResult.calculate_pnl DailyResult.calculate_holding_pnl
    DailyResult.calculate_trading_pnl
  cases hp : r.posDict with
  | nil =>
    simp only [hp, ht]
    cases hc : alGet r.closes sym with
    | none => simp only [hc]; exact ⟨_, rfl⟩
    | some c => simp only [hc]; exact ⟨_, rfl⟩
  | cons kv restp =>
    obtain ⟨symp, pv⟩ := kv
    simp only [hp]
    cases hc : alGet r.closes symp with
    | none => simp only [hc]; exact ⟨_, rfl⟩
    | some c => simp only [hc]; exact ⟨_, rfl⟩

/-- A day with exactly one recorded fill (and no overnight positions). -/
def c10ledger : DailyResult :=
  { date := 1, closes := [("A", 103)], previousCloseDict := [],
    trades := [("A", [{ vt_symbol := "A", direction := Direction.LONG,
                        offset := Offset.OPEN, price := 100, volume := 2000 }])],
    posDict := [], tradingPnl := 0, holdingPnl := 0, totalPnl := 0,
    commission := 0, slippage := 0, netPnl := 0, tradeCount := 1 }

/-- Witness for C10: the concrete one-fill ledger raises on finalization. -/
theorem turtle_C10_day_with_fills_raises_witness :
    c10ledger.trades ≠ [] ∧
    ∃ e, DailyResult.calculate_pnl c10ledger = Except.error e :=
  ⟨by decide, turtle_C10_day_with_fills_raises c10ledger "A" _ [] rfl⟩

/-! ## Claim C5 -/

/-- The spec's own holding-PnL scenario as a stored daily ledger: opening
position 5 units, previous close 100, closing price 103, no fills. -/
def c5ledger : DailyResult :=
  { date := 1, closes := [("A", 103)], previousCloseDict := [("A", 100)],
    trades := [], posDict := [("A", 5)], tradingPnl := 0, holdingPnl := 0,
    totalPnl := 0, commission := 0, slippage := 0, netPnl := 0, tradeCount := 0 }

/-- Claim C5: `calculate_result` re-runs `calculate_pnl` over every stored
ledger on *every* call (lines 116-117, no finalized guard), so a ledger is
finalized again whenever the summary is recomputed; and because
`calculate_pnl` reads the non-existent `DailyResult.sizes` attribute, the
finalization pass raises `AttributeError` on any day that carries positions
or fills — here the spec's own holding-PnL example day. -/
theorem turtle_C5_requery_refinalizes_and_raises :
    BacktestingEngine.calculate_result 1000000 [c5ledger]
      = Except.error "AttributeError: DailyResult object has no attribute sizes" := rfl

/-! ## Helper lemmas: the drawdown series of the aggregation loop -/

lemma aggStep_drawdownList (st : AggSt) (r : DailyResult) :
    (aggStep st r).drawdownList
      = st.drawdownList
          ++ [(st.end_balance + r.netPnl) - max st.highlevel (st.end_balance + r.netPnl)] := rfl

/-- Each appended drawdown is `balance - max(high, balance) ≤ 0`, so
non-positivity of the series is invariant along the loop. -/
lemma aggLoop_drawdown_nonpos (rs : List DailyResult) :
    ∀ st : AggSt, (∀ d ∈ st.drawdownList, d ≤ 0) →
      ∀ d ∈ (rs.foldl aggStep st).drawdownList, d ≤ 0 := by
  induction rs with
  | nil => intro st h; exact h
  | cons r rest ih =>
    intro st h
    rw [List.foldl_cons]
    apply ih
    intro d hd
    rw [aggStep_drawdownList] at hd
    rcases List.mem_append.mp hd with hd | hd
    · exact h d hd
    · rw [List.mem_singleton] at hd
      subst hd
      exact sub_nonpos.mpr (le_max_right _ _)

lemma aggLoop_drawdown_length (rs : List DailyResult) :
    ∀ st : AggSt, ((rs.foldl aggStep st).drawdownList).length
      = st.drawdownList.length + rs.length := by
  induction rs with
  | nil => intro st; simp
  | cons r rest ih =>
    intro st
    rw [List.foldl_cons, ih, aggStep_drawdownList]
    simp only [List.length_append, List.length_cons, List.length_nil]
    omega

lemma foldl_min_le (xs : List Rat) (a : Rat) : xs.foldl min a ≤ a := by
  induction xs generalizing a with
  | nil => exact le_refl a
  | cons x rest ih =>
    rw [List.foldl_cons]
    exact le_trans (ih (min a x)) (min_le_left a x)

lemma foldl_min_mem (xs : List Rat) (a : Rat) : xs.foldl min a = a ∨ xs.foldl min a ∈ xs := by
  induction xs generalizing a with
  | nil => exact Or.inl rfl
  | cons x rest ih =>
    rw [List.foldl_cons]
    rcases ih (min a x) with h | h
    · rw [h]
      rcases min_choice a x with hm | hm
      · exact Or.inl hm
      · rw [hm]
        exact Or.inr (List.mem_cons_self x rest)
    · exact Or.inr (List.mem_cons_of_mem x h)

lemma foldl_min_le_mem (xs : List Rat) (a : Rat) : ∀ x ∈ xs, xs.foldl min a ≤ x := by
  induction xs generalizing a with
  | nil => intro x hx; cases hx
  | cons y rest ih =>
    intro x hx
    rw [List.foldl_cons]
    rcases List.mem_cons.mp hx with hh | hx
    · subst hh
      exact le_trans (foldl_min_le rest (min a x)) (min_le_right a x)
    · exact ih (min a y) x hx

/-- Python `min` of a nonempty list is a member of the list. -/
lemma pyMin_mem (x : Rat) (xs : List Rat) : pyMin (x :: xs) ∈ x :: xs := by
  have e : pyMin (x :: xs) = xs.foldl min x := rfl
  rw [e]
  rcases foldl_min_mem xs x with h | h
  · rw [h]; exact List.mem_cons_self x xs
  · exact List.mem_cons_of_mem x h

/-- Python `min` of a nonempty list bounds every member below. -/
lemma pyMin_le (x : Rat) (xs : List Rat) : ∀ y ∈ x :: xs, pyMin (x :: xs) ≤ y := by
  have e : pyMin (x :: xs) = xs.foldl min x := rfl
  rw [e]
  intro y hy
  rcases List.mem_cons.mp hy with hh | hy
  · subst hh
    exact foldl_min_le xs y
  · exact foldl_min_le_mem xs x y hy

/-! ## Claim C9 -/

/-- Claim C9: whenever the summary loop of `calculate_result` returns, every
element of the produced drawdown series is ≤ 0 (the high-water mark is the
running maximum of the balance), and the reported `maxDrawdown` is the
minimum of the drawdown series: it belongs to the series and bounds every
element below. -/
theorem turtle_C9_drawdown_series (pv : Rat) (results : List DailyResult) (out : AggOut)
    (h : calculate_result_loop pv results = Except.ok out) :
    (∀ d ∈ out.drawdownList, d ≤ 0) ∧
    out.maxDrawdown ∈ out.drawdownList ∧
    (∀ d ∈ out.drawdownList, out.maxDrawdown ≤ d) := by
  unfold calculate_result_loop at h
  cases results with
  | nil => exact Except.noConfusion h
  | cons r rest =>
    injection h with h
    subst h
    have hlen := aggLoop_drawdown_length (r :: rest) (aggInit pv)
    obtain ⟨x, xs, hx⟩ : ∃ x xs,
        ((r :: rest).foldl aggStep (aggInit pv)).drawdownList = x :: xs := by
      cases hh : ((r :: rest).foldl aggStep (aggInit pv)).drawdownList with
      | nil =>
        rw [hh] at hlen
        simp [aggInit] at hlen
      | cons x xs => exact ⟨x, xs, rfl⟩
    refine ⟨?_, ?_, ?_⟩
    · intro d hd
      exact aggLoop_drawdown_nonpos (r :: rest) (aggInit pv)
        (by intro d hd; simp [aggInit] at hd) d hd
    · show pyMin (((r :: rest).foldl aggStep (aggInit pv)).drawdownList)
        ∈ ((r :: rest).foldl aggStep (aggInit pv)).drawdownList
      rw [hx]
      exact pyMin_mem x xs
    · intro d hd
      show pyMin (((r :: rest).foldl aggStep (aggInit pv)).drawdownList) ≤ d
      rw [hx]
      exact pyMin_le x xs d (by rw [← hx]; exact hd)

/-- A trivial finalized day (no positions, no fills, zero PnL). -/
def c9day : DailyResult :=
  { date := 1, closes := [], previousCloseDict := [], trades := [], posDict := [],
    tradingPnl := 0, holdingPnl := 0, totalPnl := 0, commission := 0, slippage := 0,
    netPnl := 0, tradeCount := 0 }

/-- The summary the loop produces for the single day `c9day` from balance 1000. -/
def c9out : AggOut :=
  { total_days := 1, profit_days := 0, loss_days := 0, end_balance := 1000,
    maxDrawdown := 0, maxDdPercent := 0, total_net_pnl := 0, total_commission := 0,
    total_slippage := 0, total_trade_count := 0, totalReturn := 0,
    netPnlList := [0], balanceList := [1000], highlevelList := [1000],
    drawdownList := [0], ddPercentList := [0], returnList := [0] }

/-- Witness for C9 at a concrete run: one trivial day from balance 1000. -/
theorem turtle_C9_drawdown_series_witness :
    calculate_result_loop 1000 [c9day] = Except.ok c9out ∧
    ((∀ d ∈ c9out.drawdownList, d ≤ 0) ∧
     c9out.maxDrawdown ∈ c9out.drawdownList ∧
     (∀ d ∈ c9out.drawdownList, c9out.maxDrawdown ≤ d)) := by
  have hc : calculate_result_loop 1000 [c9day] = Except.ok c9out := by
    norm_num [calculate_result_loop, aggStep, aggInit, pyMin, c9day, c9out]
  exact ⟨hc, turtle_C9_drawdown_series 1000 [c9day] c9out hc⟩
